import Mathlib

/-!
Verification of the RAIS quality-report pipeline (backend/app/pipelines).

The Python sources are shallowly embedded: cell values become the inductive
type `PyVal` (Python `None`, `str`, `int`/`float` collapsed to `ℚ`, and
`datetime.date`), strings become `List Char` so that every operation is a
structural recursion the kernel can evaluate, and each pipeline function is
translated definition-by-definition from
`parser.py`, `validator.py`, `computation.py` and `pipelines/__init__.py`.
Floating point arithmetic is idealised as exact rational arithmetic; every
concrete input used in a theorem below has been chosen so that the Python
float computation and the rational computation agree on every comparison
the code performs.
-/

namespace RAIS

/-! ## Character and string utilities

Python string operations (`lower`, `upper`, `strip`, substring `in`) are
modelled over `List Char`.  Only ASCII case mapping is implemented, which
is exact for every string the pipeline manipulates (headers are ASCII).
-/

/-- ASCII lower-casing of one character (models Python `str.lower` on ASCII). -/
def asciiLower (c : Char) : Char :=
  if 'A' ≤ c ∧ c ≤ 'Z' then Char.ofNat (c.toNat + 32) else c

/-- ASCII upper-casing of one character (models Python `str.upper` on ASCII). -/
def asciiUpper (c : Char) : Char :=
  if 'a' ≤ c ∧ c ≤ 'z' then Char.ofNat (c.toNat - 32) else c

/-- Lower-case a string. -/
def lowerS (s : List Char) : List Char := s.map asciiLower

/-- Upper-case a string. -/
def upperS (s : List Char) : List Char := s.map asciiUpper

/-- The whitespace characters recognised by Python `str.strip` (ASCII part). -/
def isPySpace (c : Char) : Bool :=
  c = ' ' ∨ c = '\t' ∨ c = '\n' ∨ c = '\x0d' ∨ c = '\x0b' ∨ c = '\x0c'

/-- Python `str.strip`: drop leading and trailing whitespace. -/
def strip (s : List Char) : List Char :=
  ((s.dropWhile isPySpace).reverse.dropWhile isPySpace).reverse

/-- Does `needle` occur at the start of `hay`?  (Python prefix test.) -/
def startsWithS : List Char → List Char → Bool
  | [], _ => true
  | _ :: _, [] => false
  | a :: as, b :: bs => a = b && startsWithS as bs

/-- Python substring containment `needle in hay` (contiguous substring). -/
def containsSub (needle : List Char) : List Char → Bool
  | [] => needle.isEmpty
  | c :: rest => startsWithS needle (c :: rest) || containsSub needle rest

/-- Python `str.replace(",", "")`. -/
def removeCommas (s : List Char) : List Char := s.filter (fun c => c ≠ ',')

/-- Decimal digit character of `n < 10`. -/
def digitChar (n : Nat) : Char := Char.ofNat (48 + n)

/-- Decimal digits of a natural number (fuel-bounded so the recursion is
structural; 24 digits of fuel covers every number in this development). -/
def natChars : Nat → Nat → List Char
  | 0, _ => []
  | fuel + 1, n => if n < 10 then [digitChar n] else natChars fuel (n / 10) ++ [digitChar (n % 10)]

/-- Decimal representation of an integer (models Python `str` on `int`). -/
def intChars (i : Int) : List Char :=
  if i < 0 then '-' :: natChars 24 i.natAbs else natChars 24 i.natAbs

/-- Rendering of a rational used where Python would call `str` on a number.
For whole numbers this matches Python exactly; for non-integers Python
prints a decimal expansion while we print `num/den`.  No header keyword and
no date format can match either rendering, which is the only way these
strings are consumed, so the difference is unobservable in the model. -/
def ratChars (q : ℚ) : List Char :=
  if q.den = 1 then intChars q.num else intChars q.num ++ '/' :: natChars 24 q.den

/-- Zero-padded two-digit rendering of a month number. -/
def pad2 (n : Nat) : List Char :=
  if n < 10 then '0' :: natChars 24 n else natChars 24 n

/-- Zero-padded four-digit rendering of a year. -/
def pad4 (n : Nat) : List Char :=
  if n < 10 then '0' :: '0' :: '0' :: natChars 24 n
  else if n < 100 then '0' :: '0' :: natChars 24 n
  else if n < 1000 then '0' :: natChars 24 n
  else natChars 24 n

/-- Mathematical floor of a rational as an integer (`⌊q⌋`, computable). -/
def ratFloor (q : ℚ) : Int := q.num.fdiv (q.den : Int)

/-! ## Calendar dates

`PDate` models Python `datetime.date` (a `datetime` is collapsed to its
`.date()`, which is how every pipeline function consumes it). -/

/-- A calendar date. -/
structure PDate where
  year : Int
  month : Nat
  day : Nat
deriving DecidableEq, Repr

/-- Is `y` a Gregorian leap year? -/
def isLeap (y : Int) : Bool := y.emod 4 = 0 ∧ (y.emod 100 ≠ 0 ∨ y.emod 400 = 0)

/-- Number of days in month `m` of year `y`. -/
def daysInMonth (y : Int) (m : Nat) : Nat :=
  if m = 2 then (if isLeap y then 29 else 28)
  else if m = 4 ∨ m = 6 ∨ m = 9 ∨ m = 11 then 30
  else 31

/-- Convert a count of days since 1970-01-01 to a calendar date
(standard civil-from-days algorithm, proleptic Gregorian calendar). -/
def civilFromDays (z0 : Int) : PDate :=
  let z : Int := z0 + 719468
  let era : Int := z.fdiv 146097
  let doe : Nat := (z - era * 146097).toNat
  let yoe : Nat := (doe - doe / 1460 + doe / 36524 - doe / 146096) / 365
  let y : Int := (yoe : Int) + era * 400
  let doy : Nat := doe - (365 * yoe + yoe / 4 - yoe / 100)
  let mp : Nat := (5 * doy + 2) / 153
  let d : Nat := doy - (153 * mp + 2) / 5 + 1
  let m : Nat := if mp < 10 then mp + 3 else mp - 9
  ⟨y + (if m ≤ 2 then 1 else 0), m, d⟩

/-- Model of `strftime("%Y-%m")`: the canonical month key of a date. -/
def monthKeyStr (d : PDate) : List Char :=
  pad4 d.year.toNat ++ '-' :: pad2 d.month

/-! ## Python values

`PyVal` is the type of cell values flowing through the pipeline: Python
`None`, `str`, numbers (`int` and `float` collapsed to `ℚ`; the pipeline
never distinguishes them except that both score `-1` in header detection),
and dates.  Float `NaN` (handled by `pd.isna`) has no rational
representative and is outside the model. -/

/-- A Python cell value. -/
inductive PyVal where
  | none
  | str (s : List Char)
  | num (q : ℚ)
  | pydate (d : PDate)
deriving DecidableEq

/-- Model of `str(cell)` as used for keyword matching: strings are themselves,
numbers render via `ratChars`, dates via ISO format. -/
def pyStr : PyVal → List Char
  | .none => ['N', 'o', 'n', 'e']
  | .str s => s
  | .num q => ratChars q
  | .pydate d => monthKeyStr d ++ '-' :: pad2 d.day

/-! ## parser.py: clean_value -/

/-- The five Excel error sentinels recognised by `clean_value`
(parser.py lines 216). -/
def errorSentinels : List (List Char) :=
  ["#DIV/0!".data, "#N/A".data, "#VALUE!".data, "#REF!".data, "#NAME?".data]

/-- Embedding of `clean_value` (parser.py lines 208-229): `None` stays
`None`; a string is stripped, then mapped to `None` if it is an error
sentinel or empty, otherwise the stripped string is returned; numbers and
other values pass through.  (The `pd.isna` test on float `NaN` is outside
the rational model.) -/
def cleanValue : PyVal → PyVal
  | .none => .none
  | .str s =>
      let t := strip s
      if errorSentinels.contains t then .none
      else if t = [] then .none
      else .str t
  | .num q => .num q
  | .pydate d => .pydate d

/-! ## parser.py: excel_serial_to_date

`datetime.strptime` is embedded for exactly the format strings the
pipeline uses.  Each directive follows the CPython strptime regexes:
`%Y` is exactly four digits, `%m` matches `1[0-2]|0[1-9]|[1-9]`, `%d`
matches `3[01]|[12]\d|0[1-9]|[1-9]`, `%B`/`%b` match English month names
case-insensitively, a literal space matches one or more whitespace
characters, the whole string must be consumed, and an out-of-range day
(or year 0) makes the parse fail. -/

/-- Numeric value of a digit character. -/
def dv (c : Char) : Nat := c.toNat - 48

/-- Parse exactly four digits (`%Y`). -/
def parse4Digits : List Char → Option (Nat × List Char)
  | a :: b :: c :: d :: rest =>
      if a.isDigit ∧ b.isDigit ∧ c.isDigit ∧ d.isDigit then
        some ((((dv a) * 10 + dv b) * 10 + dv c) * 10 + dv d, rest)
      else none
  | _ => none

/-- Parse a month number (`%m`, CPython regex `1[0-2]|0[1-9]|[1-9]`). -/
def parseMonthNum : List Char → Option (Nat × List Char)
  | '1' :: c :: rest =>
      if c = '0' ∨ c = '1' ∨ c = '2' then some (10 + dv c, rest)
      else some (1, c :: rest)
  | '0' :: c :: rest => if '1' ≤ c ∧ c ≤ '9' then some (dv c, rest) else none
  | c :: rest => if '1' ≤ c ∧ c ≤ '9' then some (dv c, rest) else none
  | [] => none

/-- Parse a day number (`%d`, CPython regex `3[01]|[12]\d|0[1-9]|[1-9]`). -/
def parseDayNum : List Char → Option (Nat × List Char)
  | '3' :: '0' :: rest => some (30, rest)
  | '3' :: '1' :: rest => some (31, rest)
  | '1' :: c :: rest => if c.isDigit then some (10 + dv c, rest) else some (1, c :: rest)
  | '2' :: c :: rest => if c.isDigit then some (20 + dv c, rest) else some (2, c :: rest)
  | '0' :: c :: rest => if '1' ≤ c ∧ c ≤ '9' then some (dv c, rest) else none
  | c :: rest => if '1' ≤ c ∧ c ≤ '9' then some (dv c, rest) else none
  | [] => none

/-- English month names for `%B`. -/
def monthNamesFull : List (List Char × Nat) :=
  [("january".data, 1), ("february".data, 2), ("march".data, 3), ("april".data, 4),
   ("may".data, 5), ("june".data, 6), ("july".data, 7), ("august".data, 8),
   ("september".data, 9), ("october".data, 10), ("november".data, 11),
   ("december".data, 12)]

/-- English abbreviated month names for `%b`. -/
def monthNamesAbbr : List (List Char × Nat) :=
  [("jan".data, 1), ("feb".data, 2), ("mar".data, 3), ("apr".data, 4),
   ("may".data, 5), ("jun".data, 6), ("jul".data, 7), ("aug".data, 8),
   ("sep".data, 9), ("oct".data, 10), ("nov".data, 11), ("dec".data, 12)]

/-- Case-insensitive match of one name from `names` at the head of `s`. -/
def parseNameIn : List (List Char × Nat) → List Char → Option (Nat × List Char)
  | [], _ => none
  | (nm, m) :: rest, s =>
      if startsWithS nm (lowerS s) then some (m, s.drop nm.length)
      else parseNameIn rest s

/-- Consume one expected literal character. -/
def expectChar (c : Char) : List Char → Option (List Char)
  | x :: rest => if x = c then some rest else none
  | [] => none

/-- Consume one or more whitespace characters (a literal space in a
`strptime` format). -/
def expectSpaces1 : List Char → Option (List Char)
  | x :: rest => if isPySpace x then some (rest.dropWhile isPySpace) else none
  | [] => none

/-- Build the parsed date, failing on year 0 or an out-of-range day
(this is where `datetime` raises `ValueError` inside `strptime`). -/
def mkParsedDate (y m d : Nat) : Option PDate :=
  if y = 0 then none
  else if 1 ≤ d ∧ d ≤ daysInMonth (y : Int) m then some ⟨(y : Int), m, d⟩
  else none

/-- Parser for `strptime(s, "%Y-%m-%d")`. -/
def fmtYmd (s : List Char) : Option PDate := do
  let (y, r1) ← parse4Digits s
  let r2 ← expectChar '-' r1
  let (m, r3) ← parseMonthNum r2
  let r4 ← expectChar '-' r3
  let (d, r5) ← parseDayNum r4
  if r5 = [] then mkParsedDate y m d else none

/-- Parser for `strptime(s, "%d-%m-%Y")`. -/
def fmtDmY (s : List Char) : Option PDate := do
  let (d, r1) ← parseDayNum s
  let r2 ← expectChar '-' r1
  let (m, r3) ← parseMonthNum r2
  let r4 ← expectChar '-' r3
  let (y, r5) ← parse4Digits r4
  if r5 = [] then mkParsedDate y m d else none

/-- Parser for `strptime(s, "%d/%m/%Y")`. -/
def fmtDmYSlash (s : List Char) : Option PDate := do
  let (d, r1) ← parseDayNum s
  let r2 ← expectChar '/' r1
  let (m, r3) ← parseMonthNum r2
  let r4 ← expectChar '/' r3
  let (y, r5) ← parse4Digits r4
  if r5 = [] then mkParsedDate y m d else none

/-- Parser for `strptime(s, "%B %Y")` (day defaults to 1). -/
def fmtBY (s : List Char) : Option PDate := do
  let (m, r1) ← parseNameIn monthNamesFull s
  let r2 ← expectSpaces1 r1
  let (y, r3) ← parse4Digits r2
  if r3 = [] then mkParsedDate y m 1 else none

/-- Parser for `strptime(s, "%b %Y")` (day defaults to 1). -/
def fmtAbbrY (s : List Char) : Option PDate := do
  let (m, r1) ← parseNameIn monthNamesAbbr s
  let r2 ← expectSpaces1 r1
  let (y, r3) ← parse4Digits r2
  if r3 = [] then mkParsedDate y m 1 else none

/-- Try an ordered list of format parsers; the first success wins
(the `for fmt in [...]` / `except ValueError: continue` loop). -/
def tryFormats : List (List Char → Option PDate) → List Char → Option PDate
  | [], _ => none
  | f :: fs, s =>
      match f s with
      | some d => some d
      | none => tryFormats fs s

/-- The ordered format list of `excel_serial_to_date` (parser.py line 73). -/
def parserFormats : List (List Char → Option PDate) :=
  [fmtYmd, fmtDmY, fmtDmYSlash, fmtBY, fmtAbbrY]

/-- Embedding of `excel_serial_to_date` (parser.py lines 64-86): a date
passes through; a string is stripped and tried against the ordered format
list; a number is a day offset from the epoch 1899-12-30 (day -25569
relative to 1970-01-01), rejected when less than 1, with fractional days
truncated by the final `.date()` call.  (`pd.isna` on float `NaN` and the
`pd.Timedelta` overflow bound are outside the rational model.) -/
def excelSerialToDate : PyVal → Option PDate
  | .none => none
  | .pydate d => some d
  | .str s => tryFormats parserFormats (strip s)
  | .num q => if q < 1 then none else some (civilFromDays (ratFloor q - 25569))

/-! ## parser.py: header row detection -/

/-- The header keyword vocabulary (parser.py lines 117-122).  The Python
set is iterated with a `break` on the first hit, so only membership of
some keyword as a substring matters. -/
def headerKeywords : List (List Char) :=
  ["s.no".data, "s.no.".data, "sl.no".data, "date".data, "month".data, "year".data,
   "production".data, "dispatch".data, "received".data, "inspected".data,
   "accepted".data, "rejected".data, "qty".data, "quantity".data, "total".data,
   "percentage".data, "%".data, "defect".data, "batch".data, "lot".data,
   "item".data, "product".data, "code".data, "remarks".data, "result".data]

/-- A cell counts as non-empty for header scoring unless it is `None` or a
whitespace-only string (parser.py line 134). -/
def cellNonEmpty : PyVal → Bool
  | .none => false
  | .str s => ¬(strip s).isEmpty
  | _ => true

/-- Does `str(cell).lower().strip()` contain some header keyword?
(parser.py lines 138-144). -/
def keywordHit (v : PyVal) : Bool :=
  headerKeywords.any (fun kw => containsSub kw (strip (lowerS (pyStr v))))

/-- The unnormalised score contribution of one non-empty cell: `+10` for a
keyword hit, `+2` for a string, `-1` for a number (parser.py lines 140-150). -/
def cellScore (v : PyVal) : ℚ :=
  (if keywordHit v then 10 else 0) +
    (match v with
     | .str _ => 2
     | .num _ => -1
     | _ => 0)

/-- Embedding of `score_row_as_header` (parser.py lines 125-156): sum the
per-cell scores of the non-empty cells, then normalise by
`score / non_empty * min(non_empty, 10)`. -/
def scoreRowAsHeader (row : List PyVal) : ℚ :=
  let ne := (row.filter cellNonEmpty).length
  let raw := ((row.filter cellNonEmpty).map cellScore).sum
  if 0 < ne then raw / (ne : ℚ) * ((min ne 10 : Nat) : ℚ) else raw

/-- The scanning loop of `find_header_row` (parser.py lines 161-172):
`idx` is the 1-based index of the next row; the best score starts at `0`
and is only replaced by a strictly greater score. -/
def fhAux : List (List PyVal) → Nat → ℚ → Nat → Nat
  | [], _, _, bestRow => bestRow
  | r :: rest, idx, bestScore, bestRow =>
      if bestScore < scoreRowAsHeader r then fhAux rest (idx + 1) (scoreRowAsHeader r) idx
      else fhAux rest (idx + 1) bestScore bestRow

/-- Embedding of `find_header_row` (parser.py lines 159-172): scan at most
the first 20 rows; return 0 when no row beats the initial best score of 0. -/
def findHeaderRow (rows : List (List PyVal)) : Nat :=
  fhAux (rows.take 20) 1 0 0

/-- The header-row defaulting of `parse_sheet` (parser.py lines 238-240):
a result of 0 from `find_header_row` becomes row 1. -/
def headerRowOf (rows : List (List PyVal)) : Nat :=
  let h := findHeaderRow rows
  if h = 0 then 1 else h

/-! ## Data model: parsed rows, sheets and files

`PRow.cells` is the insertion-ordered `{normalized column name → value}`
dictionary of a parsed row; the reserved `"_source_row"` entry is held in
the separate field `srcRow`.  No pattern list used by the pipeline matches
the string `"_SOURCE_ROW"`, so keeping it out of `cells` is unobservable
to the column matchers. -/

/-- The `FileType` enumeration (schemas.py). -/
inductive FileType where
  | productionCumulative
  | cumulative
  | assembly
  | visual
  | integrity
  | shopfloor
  | unknown
deriving DecidableEq

/-- A parsed row: ordered column/value pairs plus the 1-based source row. -/
structure PRow where
  cells : List (List Char × PyVal)
  srcRow : Nat
deriving DecidableEq

/-- A `ParsedSheet` (parser.py lines 179-194); `row_count` is the length
of `data`. -/
structure PSheet where
  name : List Char
  headers : List (List Char)
  data : List PRow
  headerRow : Nat
  fileName : List Char
deriving DecidableEq

/-- A `ParseResult` (parser.py lines 197-205). -/
structure PFile where
  fileName : List Char
  ftype : FileType
  sheets : List PSheet
  errors : List (List Char)
  success : Bool
deriving DecidableEq

/-! ## validator.py -/

/-- A `DataSource` (schemas.py). -/
structure VSource where
  fileName : List Char
  sheetName : List Char
  rowNumbers : List Nat
  columnName : Option (List Char)
deriving DecidableEq

/-- A `ValidationError` model instance (schemas.py). -/
structure VError where
  message : List Char
  severity : List Char
  source : VSource
  value : Option (List Char)
deriving DecidableEq

/-- The mutable `ValidationResult` of validator.py lines 20-28. -/
structure VResult where
  valid : Bool
  errors : List VError
  warnings : List VError
  totalRows : Nat
  validRows : Int
  errorRows : Nat
deriving DecidableEq

/-- The freshly-constructed `ValidationResult`. -/
def initVResult : VResult := ⟨true, [], [], 0, 0, 0⟩

/-- Embedding of `ValidationResult.add_error` (validator.py lines 30-51): append the
finding, clear `valid`, bump `error_rows`. -/
def addError (r : VResult) (msg file sheet : List Char) (row : Nat)
    (col : Option (List Char)) (val : Option (List Char)) : VResult :=
  { r with
    errors := r.errors ++ [⟨msg, "error".data, ⟨file, sheet, [row], col⟩, val⟩],
    valid := false,
    errorRows := r.errorRows + 1 }

/-- Embedding of `ValidationResult.add_warning` (validator.py lines 53-72): append the
finding; `valid` and the row counters are untouched. -/
def addWarning (r : VResult) (msg file sheet : List Char) (row : Nat)
    (col : Option (List Char)) (val : Option (List Char)) : VResult :=
  { r with
    warnings := r.warnings ++ [⟨msg, "warning".data, ⟨file, sheet, [row], col⟩, val⟩] }

/-- Embedding of `find_column` (validator.py lines 79-86): scan the keys of the row in
order; the first key containing any pattern (upper-cased substring test)
wins; a miss yields `(None, None)`. -/
def findColumn (cells : List (List Char × PyVal)) (pats : List (List Char)) :
    Option (List Char) × PyVal :=
  match cells with
  | [] => (none, .none)
  | (k, v) :: rest =>
      if pats.any (fun p => containsSub (upperS p) (upperS k)) then (some k, v)
      else findColumn rest pats

/-- Python `float(s)` on a comma-stripped, whitespace-stripped string:
optional sign, decimal digits with an optional fractional part, optional
exponent; anything else fails.  (`"inf"`/`"nan"` literals are outside the
rational model.) -/
def parsePyFloat (s0 : List Char) : Option ℚ :=
  let signAndRest : ℚ × List Char :=
    match s0 with
    | '+' :: r => (1, r)
    | '-' :: r => (-1, r)
    | r => (1, r)
  let sgn := signAndRest.1
  let s1 := signAndRest.2
  let ip := s1.takeWhile Char.isDigit
  let r1 := s1.dropWhile Char.isDigit
  let fracAndRest : List Char × List Char :=
    match r1 with
    | '.' :: r => (r.takeWhile Char.isDigit, r.dropWhile Char.isDigit)
    | r => ([], r)
  let fp := fracAndRest.1
  let r2 := if r1 = [] then r1 else (match r1 with | '.' :: _ => fracAndRest.2 | _ => r1)
  if ip = [] ∧ fp = [] then none
  else
    let mant : ℚ := ((ip.foldl (fun a c => a * 10 + dv c) 0 : Nat) : ℚ) +
      ((fp.foldl (fun a c => a * 10 + dv c) 0 : Nat) : ℚ) / ((10 : ℚ) ^ fp.length)
    match r2 with
    | [] => some (sgn * mant)
    | e :: r3 =>
        if e = 'e' ∨ e = 'E' then
          let esignAndRest : Int × List Char :=
            match r3 with
            | '+' :: r => (1, r)
            | '-' :: r => (-1, r)
            | r => (1, r)
          let ed := esignAndRest.2.takeWhile Char.isDigit
          let r5 := esignAndRest.2.dropWhile Char.isDigit
          if ed = [] ∨ r5 ≠ [] then none
          else some (sgn * mant *
            (10 : ℚ) ^ (esignAndRest.1 * ((ed.foldl (fun a c => a * 10 + dv c) 0 : Nat) : Int)))
        else none

/-- Embedding of `get_numeric` (validator.py lines 89-102): numbers pass through,
strings are comma-stripped, whitespace-stripped and parsed as a float,
everything else (including dates) is not numeric. -/
def getNumeric : PyVal → Option ℚ
  | .none => none
  | .num q => some q
  | .str s => parsePyFloat (strip (removeCommas s))
  | .pydate _ => none

/-- Production-quantity column patterns (validator.py line 114). -/
def prodPatterns : List (List Char) :=
  ["PRODUCTION".data, "PRODUCED".data, "PROD QTY".data]

/-- Rejection-quantity column patterns (validator.py line 118). -/
def rejPatterns : List (List Char) :=
  ["REJECTION".data, "REJECTED".data, "TOTAL REJ".data, "REJ QTY".data]

/-- Received column patterns (validator.py line 160). -/
def receivedPatterns : List (List Char) :=
  ["RECEIVED".data, "REC QTY".data, "INPUT".data]

/-- Inspected column patterns (validator.py line 161). -/
def inspectedPatterns : List (List Char) :=
  ["INSPECTED".data, "INSP QTY".data, "CHECKED".data]

/-- Accepted column patterns (validator.py line 162). -/
def acceptedPatterns : List (List Char) :=
  ["ACCEPTED".data, "ACC QTY".data, "PASSED".data]

/-- Rejected column patterns (validator.py line 163). -/
def rejectedPatterns : List (List Char) :=
  ["REJECTED".data, "REJ QTY".data, "FAILED".data]

/-- Embedding of `validate_production_row` (validator.py lines 109-152): an error when
rejection exceeds production, warnings for negative production or
rejection values. -/
def validateProductionRow (row : PRow) (sheet : PSheet) (r : VResult) : VResult :=
  let prodNum := getNumeric (findColumn row.cells prodPatterns).2
  let rejNum := getNumeric (findColumn row.cells rejPatterns).2
  let r1 :=
    match prodNum, rejNum with
    | some p, some rj =>
        if p < rj then
          addError r ("Rejection (".data ++ ratChars rj ++ ") exceeds production (".data ++
            ratChars p ++ ")".data) sheet.fileName sheet.name row.srcRow
            (some "REJECTION".data) (some (ratChars rj))
        else r
    | _, _ => r
  let r2 :=
    match prodNum with
    | some p =>
        if p < 0 then
          addWarning r1 ("Negative production value: ".data ++ ratChars p ++
            " (using absolute)".data) sheet.fileName sheet.name row.srcRow
            (some "PRODUCTION".data) (some (ratChars p))
        else r1
    | none => r1
  match rejNum with
  | some rj =>
      if rj < 0 then
        addWarning r2 ("Negative rejection value: ".data ++ ratChars rj ++
          " (using absolute)".data) sheet.fileName sheet.name row.srcRow
          (some "REJECTION".data) (some (ratChars rj))
      else r2
  | none => r2

/-- The accepted/rejected/inspected consistency warning of
`validate_inspection_row` (validator.py lines 170-179): when all three
resolve and `|accepted + rejected - inspected|` exceeds the 1-unit
tolerance, a warning is appended. -/
def inspWarnStep (row : PRow) (sheet : PSheet) (r : VResult) : VResult :=
  let inspectedNum := getNumeric (findColumn row.cells inspectedPatterns).2
  let acceptedNum := getNumeric (findColumn row.cells acceptedPatterns).2
  let rejectedNum := getNumeric (findColumn row.cells rejectedPatterns).2
  match acceptedNum, rejectedNum, inspectedNum with
  | some a, some b, some i =>
      if 1 < |a + b - i| then
        addWarning r ("Accepted (".data ++ ratChars a ++ ") + Rejected (".data ++
          ratChars b ++ ") = ".data ++ ratChars (a + b) ++
          " does not match Inspected (".data ++ ratChars i ++ ")".data)
          sheet.fileName sheet.name row.srcRow none none
      else r
  | _, _, _ => r

/-- The rejected/received check of `validate_inspection_row`
(validator.py lines 181-191): when both resolve and rejected exceeds
received, an error is appended. -/
def inspErrStep (row : PRow) (sheet : PSheet) (r : VResult) : VResult :=
  let receivedNum := getNumeric (findColumn row.cells receivedPatterns).2
  let rejectedNum := getNumeric (findColumn row.cells rejectedPatterns).2
  match rejectedNum, receivedNum with
  | some b, some rc =>
      if rc < b then
        addError r ("Rejected (".data ++ ratChars b ++ ") exceeds received (".data ++
          ratChars rc ++ ")".data) sheet.fileName sheet.name row.srcRow
          (some "REJECTED".data) (some (ratChars b))
      else r
  | _, _ => r

/-- Embedding of `validate_inspection_row` (validator.py lines 155-191): the
consistency warning followed by the rejected/received error check. -/
def validateInspectionRow (row : PRow) (sheet : PSheet) (r : VResult) : VResult :=
  inspErrStep row sheet (inspWarnStep row sheet r)

/-- Embedding of `validate_defect_row` (validator.py lines 194-212): every
non-underscore column holding a negative numeric value yields a warning. -/
def validateDefectRow (row : PRow) (sheet : PSheet) (r : VResult) : VResult :=
  row.cells.foldl
    (fun acc kv =>
      if startsWithS "_".data kv.1 then acc
      else
        match getNumeric kv.2 with
        | some n =>
            if n < 0 then
              addWarning acc ("Negative defect count: ".data ++ ratChars n ++
                " (using absolute)".data) sheet.fileName sheet.name row.srcRow
                (some kv.1) (some (ratChars n))
            else acc
        | none => acc)
    r

/-- The production-category file types (validator.py line 256). -/
def productionTypes : List FileType := [.productionCumulative, .cumulative]

/-- The inspection-category file types (validator.py line 258). -/
def inspectionTypes : List FileType := [.assembly, .visual, .integrity, .shopfloor]

/-- Dispatch of the per-row validators by file type
(validator.py lines 254-260). -/
def validateRow (ft : FileType) (sheet : PSheet) (r : VResult) (row : PRow) : VResult :=
  if productionTypes.contains ft then validateProductionRow row sheet r
  else if inspectionTypes.contains ft then
    validateDefectRow row sheet (validateInspectionRow row sheet r)
  else r

/-- Per-sheet validation (validator.py lines 251-260): bump `total_rows`
by the row count of the sheet, then validate each row. -/
def valSheet (ft : FileType) (r : VResult) (sheet : PSheet) : VResult :=
  sheet.data.foldl (validateRow ft sheet)
    { r with totalRows := r.totalRows + sheet.data.length }

/-- Per-file validation (validator.py lines 240-260): an unsuccessful
file contributes one error per recorded parse failure message (attributed
to sheet "N/A", row 0) and nothing to `total_rows`; a successful file has
its sheets validated. -/
def valFile (ft : FileType) (r : VResult) (pf : PFile) : VResult :=
  if pf.success then pf.sheets.foldl (valSheet ft) r
  else pf.errors.foldl
    (fun acc e => addError acc e pf.fileName "N/A".data 0 none none) r

/-- Embedding of `validate_parsed_data` (validator.py lines 219-264): fold every file
of every type through the validators, then set
`valid_rows = total_rows - error_rows`. -/
def validateParsedData (pfs : List (FileType × List PFile)) : VResult :=
  let r := pfs.foldl (fun acc p => p.2.foldl (valFile p.1) acc) initVResult
  { r with validRows := (r.totalRows : Int) - (r.errorRows : Int) }

/-- The bookkeeping invariant of a `ValidationResult`: `valid` tracks
emptiness of the error list and `error_rows` tracks its length. -/
def VGood (r : VResult) : Prop :=
  r.valid = r.errors.isEmpty ∧ r.errorRows = r.errors.length

/-! ## computation.py: numeric helpers -/

/-- Python `int()` truncation toward zero of a rational. -/
def pyInt (q : ℚ) : Int := if q < 0 then -(ratFloor (-q)) else ratFloor q

/-- Round to the nearest integer, ties to even (Python `round`).  Python
rounds the binary float; the rational idealisation applies exact round
half to even on the true value. -/
def roundHalfEven (q : ℚ) : Int :=
  let f := ratFloor q
  let r := q - (f : ℚ)
  if r < 1 / 2 then f
  else if 1 / 2 < r then f + 1
  else if f.emod 2 = 0 then f else f + 1

/-- Python `round(x, 2)`. -/
def pyRound2 (q : ℚ) : ℚ := ((roundHalfEven (q * 100) : Int) : ℚ) / 100

/-- Lexicographic comparison of strings by code point (Python `<` on
`str`, restricted to the comparisons `sorted` performs). -/
def lexLt : List Char → List Char → Bool
  | [], [] => false
  | [], _ :: _ => true
  | _ :: _, [] => false
  | a :: as, b :: bs =>
      if a.val < b.val then true
      else if b.val < a.val then false
      else lexLt as bs

/-- Insert into an ascending-sorted list of strings. -/
def insertAsc (x : List Char) : List (List Char) → List (List Char)
  | [] => [x]
  | y :: rest => if lexLt x y then x :: y :: rest else y :: insertAsc x rest

/-- Python `sorted` on a list of strings (the pipeline only sorts lists of
distinct dictionary keys, so stability is immaterial). -/
def sortStrings : List (List Char) → List (List Char)
  | [] => []
  | x :: rest => insertAsc x (sortStrings rest)

/-- Stable descending insertion by a rational key (Python
`sorted(..., key=..., reverse=True)`). -/
def insertDescBy {α : Type} (key : α → ℚ) (x : α) : List α → List α
  | [] => [x]
  | y :: rest => if key x < key y then y :: insertDescBy key x rest else x :: y :: rest

/-- Stable descending sort by a rational key. -/
def sortDescBy {α : Type} (key : α → ℚ) : List α → List α
  | [] => []
  | x :: rest => insertDescBy key x (sortDescBy key rest)

/-- Stable descending insertion by an integer key. -/
def insertDescByInt {α : Type} (key : α → Int) (x : α) : List α → List α
  | [] => [x]
  | y :: rest => if key x < key y then y :: insertDescByInt key x rest else x :: y :: rest

/-- Stable descending sort by an integer key (Python `list.sort` with
`reverse=True`). -/
def sortDescByInt {α : Type} (key : α → Int) : List α → List α
  | [] => []
  | x :: rest => insertDescByInt key x (sortDescByInt key rest)

/-- Update an insertion-ordered association list at `k` (Python `dict`
semantics: an existing key keeps its position, a new key is appended;
`d` is the `defaultdict` default for a fresh key). -/
def alistUpdate {α : Type} (k : List Char) (f : α → α) (d : α) :
    List (List Char × α) → List (List Char × α)
  | [] => [(k, f d)]
  | (k2, v) :: rest =>
      if k2 = k then (k2, f v) :: rest else (k2, v) :: alistUpdate k f d rest

/-- Lookup in an association list (Python `dict.get`). -/
def alistFind {α : Type} (k : List Char) : List (List Char × α) → Option α
  | [] => none
  | (k2, v) :: rest => if k2 = k then some v else alistFind k rest

/-! ## computation.py: the aggregator -/

/-- One `production[month]` cell. -/
structure ProdCell where
  produced : ℚ
  dispatched : ℚ
deriving DecidableEq

/-- One `stages[stage][month]` cell. -/
structure StageCell where
  inspected : ℚ
  accepted : ℚ
  rejected : ℚ
  received : ℚ
deriving DecidableEq

/-- The `DataAggregator` (computation.py lines 94-135): three
insertion-ordered accumulators plus the provenance list. -/
structure DataAggregator where
  production : List (List Char × ProdCell)
  stages : List (List Char × List (List Char × StageCell))
  defects : List (List Char × List (List Char × ℚ))
  sources : List VSource
deriving DecidableEq

/-- A freshly-constructed aggregator. -/
def emptyAggregator : DataAggregator := ⟨[], [], [], []⟩

/-- Embedding of `DataAggregator.add_production`. -/
def addProduction (agg : DataAggregator) (month : List Char)
    (produced dispatched : ℚ) (src : VSource) : DataAggregator :=
  { agg with
    production := alistUpdate month
      (fun c => ⟨c.produced + produced, c.dispatched + dispatched⟩) ⟨0, 0⟩
      agg.production,
    sources := agg.sources ++ [src] }

/-- Embedding of `DataAggregator.add_stage_data`. -/
def addStageData (agg : DataAggregator) (stageCode month : List Char)
    (inspected accepted rejected received : ℚ) (src : VSource) : DataAggregator :=
  { agg with
    stages := alistUpdate stageCode
      (fun ms => alistUpdate month
        (fun c => ⟨c.inspected + inspected, c.accepted + accepted,
                   c.rejected + rejected, c.received + received⟩)
        ⟨0, 0, 0, 0⟩ ms)
      [] agg.stages,
    sources := agg.sources ++ [src] }

/-- Embedding of `DataAggregator.add_defect`. -/
def addDefect (agg : DataAggregator) (code month : List Char) (count : ℚ)
    (src : VSource) : DataAggregator :=
  { agg with
    defects := alistUpdate code (alistUpdate month (fun c => c + count) 0) []
      agg.defects,
    sources := agg.sources ++ [src] }

/-! ## computation.py: extraction -/

/-- Embedding of `safe_numeric` (computation.py lines 41-53): absolute value of a
number or numeric string, 0 for anything else. -/
def safeNumeric : PyVal → ℚ
  | .none => 0
  | .num q => |q|
  | .str s =>
      match parsePyFloat (strip (removeCommas s)) with
      | some q => |q|
      | none => 0
  | .pydate _ => 0

/-- The month-key column patterns of `get_month_key`
(computation.py line 58). -/
def monthColPatterns : List (List Char) := ["MONTH".data, "DATE".data, "PERIOD".data]

/-- Parser for `strptime(s, "%Y-%m")`. -/
def fmtYm (s : List Char) : Option PDate := do
  let (y, r1) ← parse4Digits s
  let r2 ← expectChar '-' r1
  let (m, r3) ← parseMonthNum r2
  if r3 = [] then mkParsedDate y m 1 else none

/-- Parser for `strptime(s, "%m/%Y")`. -/
def fmtMY (s : List Char) : Option PDate := do
  let (m, r1) ← parseMonthNum s
  let r2 ← expectChar '/' r1
  let (y, r3) ← parse4Digits r2
  if r3 = [] then mkParsedDate y m 1 else none

/-- The ordered string-format list of `get_month_key`
(computation.py line 73). -/
def monthKeyFormats : List (List Char → Option PDate) := [fmtBY, fmtAbbrY, fmtYm, fmtMY]

/-- Embedding of `get_month_key` (computation.py lines 56-80): resolve a month/date
column, convert a numeric serial, a date, or a formatted string to the
canonical `"YYYY-MM"` key; anything else is no key. -/
def getMonthKey (row : PRow) : Option (List Char) :=
  match (findColumn row.cells monthColPatterns).2 with
  | .none => none
  | .num q =>
      match excelSerialToDate (.num q) with
      | some d => some (monthKeyStr d)
      | none => none
  | .pydate d => some (monthKeyStr d)
  | .str s =>
      match tryFormats monthKeyFormats (strip s) with
      | some d => some (monthKeyStr d)
      | none => none

/-- The month tokens of the sheet-name regex with their two-digit month
numbers (computation.py lines 192-203). -/
def monthToks : List (List Char × List Char) :=
  [("JAN".data, "01".data), ("FEB".data, "02".data), ("MAR".data, "03".data),
   ("APR".data, "04".data), ("MAY".data, "05".data), ("JUN".data, "06".data),
   ("JUL".data, "07".data), ("AUG".data, "08".data), ("SEP".data, "09".data),
   ("OCT".data, "10".data), ("NOV".data, "11".data), ("DEC".data, "12".data)]

/-- ASCII upper-case letter test (the `[A-Z]` class). -/
def isUpperAZ (c : Char) : Bool := 'A' ≤ c ∧ c ≤ 'Z'

/-- Try each month token as a prefix of `s`. -/
def tokAt : List (List Char × List Char) → List Char → Option (List Char × List Char)
  | [], _ => none
  | (t, mm) :: rest, s => if startsWithS t s then some (t, mm) else tokAt rest s

/-- Attempt the regex `(JAN|FEB|...)[A-Z]*\s*(\d{2,4})` at the head of
the (already upper-cased) string: month token, trailing capital letters,
optional whitespace, then greedily two to four digits; a two-digit year is
prefixed with "20" (computation.py lines 192-203). -/
def matchMonthAt (s : List Char) : Option (List Char) :=
  match tokAt monthToks s with
  | none => none
  | some (t, mm) =>
      let r1 := (s.drop t.length).dropWhile isUpperAZ
      let r2 := r1.dropWhile isPySpace
      let digits := (r2.takeWhile Char.isDigit).take 4
      if 2 ≤ digits.length then
        let year := if digits.length = 2 then '2' :: '0' :: digits else digits
        some (year ++ '-' :: mm)
      else none

/-- Leftmost-match scan of the sheet-name regex. -/
def findMonthScanAux : List Char → Option (List Char)
  | [] => none
  | c :: rest =>
      match matchMonthAt (c :: rest) with
      | some r => some r
      | none => findMonthScanAux rest

/-- The sheet-name month heuristic of `extract_from_inspection`
(computation.py lines 189-203). -/
def findSheetMonth (name : List Char) : Option (List Char) :=
  findMonthScanAux (upperS name)

/-- Model of `STAGE_MAPPING.get(file_type, "UNKNOWN")` (computation.py
lines 142-147, 185). -/
def stageMapping : FileType → List Char
  | .shopfloor => "SHOPFLOOR".data
  | .assembly => "ASSEMBLY".data
  | .visual => "VISUAL".data
  | .integrity => "INTEGRITY".data
  | _ => "UNKNOWN".data

/-- The list `DEFECT_PATTERNS` (computation.py lines 150-154). -/
def defectPatterns : List (List Char) :=
  ["COAG".data, "RAISED WIRE".data, "SURFACE".data, "OVERLAPING".data,
   "BLACK MARK".data, "WEBBING".data, "MISSING".data, "LEAKAGE".data,
   "BUBBLE".data, "THIN".data, "DIRTY".data, "STICKY".data, "WEAK".data,
   "WRONG COLOR".data, "PIN HOLE".data, "STRIPPING".data, "BALLOON".data,
   "VALVE".data, "OTHER".data]

/-- Dispatch column patterns (computation.py line 167). -/
def dispatchPatterns : List (List Char) := ["DISPATCH".data, "DISPATCHED".data]

/-- Received column patterns of the computation stage
(computation.py line 208). -/
def compReceivedPatterns : List (List Char) :=
  ["RECEIVED".data, "REC".data, "INPUT".data]

/-- Inspected column patterns of the computation stage
(computation.py line 209). -/
def compInspectedPatterns : List (List Char) :=
  ["INSPECTED".data, "INSP".data, "CHECKED".data, "TOTAL".data]

/-- Accepted column patterns of the computation stage
(computation.py line 210). -/
def compAcceptedPatterns : List (List Char) :=
  ["ACCEPTED".data, "ACC".data, "PASSED".data, "OK".data]

/-- Rejected column patterns of the computation stage
(computation.py line 211). -/
def compRejectedPatterns : List (List Char) :=
  ["REJECTED".data, "REJ".data, "FAILED".data, "NG".data]

/-- One row of `extract_from_production` (computation.py lines 157-180):
rows without a resolvable month key are skipped. -/
def extractProdRow (sheet : PSheet) (agg : DataAggregator) (row : PRow) : DataAggregator :=
  match getMonthKey row with
  | none => agg
  | some month =>
      addProduction agg month
        (safeNumeric (findColumn row.cells prodPatterns).2)
        (safeNumeric (findColumn row.cells dispatchPatterns).2)
        ⟨sheet.fileName, sheet.name, [row.srcRow], none⟩

/-- Embedding of `extract_from_production` over a list of parse results. -/
def extractFromProduction (results : List PFile) (agg : DataAggregator) : DataAggregator :=
  results.foldl
    (fun a pf => pf.sheets.foldl
      (fun a2 sheet => sheet.data.foldl (extractProdRow sheet) a2) a)
    agg

/-- First defect-vocabulary token contained in the upper-cased key
(computation.py lines 235-246; the `break` makes the first token win). -/
def firstDefectPat : List (List Char) → List Char → Option (List Char)
  | [], _ => none
  | p :: rest, keyU => if containsSub p keyU then some p else firstDefectPat rest keyU

/-- The defect-count extraction of one inspection row. -/
def extractDefects (sheet : PSheet) (month : List Char) (row : PRow)
    (agg : DataAggregator) : DataAggregator :=
  row.cells.foldl
    (fun a kv =>
      if startsWithS "_".data kv.1 then a
      else
        match firstDefectPat defectPatterns (upperS kv.1) with
        | none => a
        | some pat =>
            let count := safeNumeric kv.2
            if 0 < count then
              addDefect a pat month count
                ⟨sheet.fileName, sheet.name, [row.srcRow], some kv.1⟩
            else a)
    agg

/-- One row of `extract_from_inspection` (computation.py lines 205-246):
the month falls back from the row to the sheet-name heuristic to the
fixed month "2025-04". -/
def extractInspRow (stageCode : List Char) (sheetMonth : Option (List Char))
    (sheet : PSheet) (agg : DataAggregator) (row : PRow) : DataAggregator :=
  let month := ((getMonthKey row).or sheetMonth).getD "2025-04".data
  let a1 := addStageData agg stageCode month
    (safeNumeric (findColumn row.cells compInspectedPatterns).2)
    (safeNumeric (findColumn row.cells compAcceptedPatterns).2)
    (safeNumeric (findColumn row.cells compRejectedPatterns).2)
    (safeNumeric (findColumn row.cells compReceivedPatterns).2)
    ⟨sheet.fileName, sheet.name, [row.srcRow], none⟩
  extractDefects sheet month row a1

/-- Embedding of `extract_from_inspection` over a list of parse results. -/
def extractFromInspection (results : List PFile) (ft : FileType)
    (agg : DataAggregator) : DataAggregator :=
  results.foldl
    (fun a pf => pf.sheets.foldl
      (fun a2 sheet => sheet.data.foldl
        (extractInspRow (stageMapping ft) (findSheetMonth sheet.name) sheet) a2) a)
    agg

/-! ## computation.py: KPI, stage, trend, Pareto, defect-trend outputs -/

/-- The constant `COST_PER_REJECTED_UNIT` (computation.py line 87). -/
def costPerRejectedUnit : ℚ := 365

/-- The `KPIData` model (schemas.py). -/
structure KPIData where
  rejectionRate : ℚ
  rejectionRateChange : ℚ
  rejectionTrend : List Char
  yieldRate : ℚ
  totalProduced : Int
  totalDispatched : Int
  totalRejected : Int
  productionDate : PDate
  financialImpact : ℚ
  watchBatches : Nat
  sources : List VSource
deriving DecidableEq

/-- Total rejected across all stages in one month
(`stage_months.get(month, {}).get("rejected", 0)` summed). -/
def stageRejectedInMonth (stages : List (List Char × List (List Char × StageCell)))
    (m : List Char) : ℚ :=
  (stages.map (fun s =>
    match alistFind m s.2 with
    | some c => c.rejected
    | none => 0)).sum

/-- Embedding of `compute_kpis` (computation.py lines 253-325). -/
def computeKpis (agg : DataAggregator) (today : PDate) : KPIData :=
  let totalProduced := (agg.production.map (fun p => p.2.produced)).sum
  let totalDispatched := (agg.production.map (fun p => p.2.dispatched)).sum
  let totalRejected := (agg.stages.map (fun s => (s.2.map (fun m => m.2.rejected)).sum)).sum
  let rejectionRate := if 0 < totalProduced then totalRejected / totalProduced * 100 else 0
  let yieldRate := 100 - rejectionRate
  let allMonths := sortStrings (agg.production.map Prod.fst)
  let rcTrend : ℚ × List Char :=
    match allMonths.reverse with
    | currentMonth :: prevMonth :: _ =>
        let currentProd :=
          (match alistFind currentMonth agg.production with
           | some c => c.produced
           | none => 0)
        let currentRej := stageRejectedInMonth agg.stages currentMonth
        let currentRate := if 0 < currentProd then currentRej / currentProd * 100 else 0
        let prevProd :=
          (match alistFind prevMonth agg.production with
           | some c => c.produced
           | none => 0)
        let prevRej := stageRejectedInMonth agg.stages prevMonth
        let prevRate := if 0 < prevProd then prevRej / prevProd * 100 else 0
        let rc := currentRate - prevRate
        (rc,
         if 1 / 2 < rc then "up".data
         else if rc < -(1 / 2) then "down".data
         else "stable".data)
    | _ => (0, "stable".data)
  let prodDate :=
    match allMonths.reverse with
    | latest :: _ =>
        (match fmtYmd (latest ++ "-01".data) with
         | some d => d
         | none => today)
    | [] => today
  let watch := (agg.stages.map (fun s =>
    (s.2.filter (fun m =>
      decide (0 < m.2.inspected) && decide ((10 : ℚ) < m.2.rejected / m.2.inspected * 100))).length)).sum
  { rejectionRate := pyRound2 rejectionRate,
    rejectionRateChange := pyRound2 rcTrend.1,
    rejectionTrend := rcTrend.2,
    yieldRate := pyRound2 yieldRate,
    totalProduced := pyInt totalProduced,
    totalDispatched := pyInt totalDispatched,
    totalRejected := pyInt totalRejected,
    productionDate := prodDate,
    financialImpact := pyRound2 (totalRejected * costPerRejectedUnit),
    watchBatches := watch,
    sources := agg.sources.take 10 }

/-- The per-month rejection rate the KPI trend compares: total rejected
across stages in the month over the production of the month, percent,
0 when there is no production (computation.py lines 275-287). -/
def monthRate (agg : DataAggregator) (m : List Char) : ℚ :=
  let p :=
    (match alistFind m agg.production with
     | some c => c.produced
     | none => 0)
  let rj := stageRejectedInMonth agg.stages m
  if 0 < p then rj / p * 100 else 0

/-- A two-month aggregator used to exercise the KPI trend: April 2025
produced 100 with 10 rejected, May 2025 produced 100 with 50 rejected. -/
def trendWitnessAgg : DataAggregator :=
  ⟨[("2025-04".data, ⟨100, 0⟩), ("2025-05".data, ⟨100, 0⟩)],
   [("ASSEMBLY".data, [("2025-04".data, ⟨0, 0, 10, 0⟩), ("2025-05".data, ⟨0, 0, 50, 0⟩)])],
   [], []⟩

/-- The `StageKPI` model (schemas.py). -/
structure StageKPI where
  stageCode : List Char
  stageName : List Char
  inspected : Int
  accepted : Int
  rejected : Int
  rejectionRate : ℚ
  contributionPercent : ℚ
deriving DecidableEq

/-- The display names of `compute_stage_kpis` (computation.py
lines 332-337). -/
def stageDisplayName (code : List Char) : List Char :=
  if code = "SHOPFLOOR".data then "Shopfloor Rejection".data
  else if code = "ASSEMBLY".data then "Assembly Inspection".data
  else if code = "VISUAL".data then "Visual Inspection".data
  else if code = "INTEGRITY".data then "Balloon & Valve Integrity".data
  else code

/-- Embedding of `compute_stage_kpis` (computation.py lines 328-366). -/
def computeStageKpis (agg : DataAggregator) : List StageKPI :=
  let totalRejected := (agg.stages.map (fun s => (s.2.map (fun m => m.2.rejected)).sum)).sum
  let kpis := agg.stages.map (fun s =>
    let inspected := (s.2.map (fun m => m.2.inspected)).sum
    let accepted := (s.2.map (fun m => m.2.accepted)).sum
    let rejected := (s.2.map (fun m => m.2.rejected)).sum
    ({ stageCode := s.1,
       stageName := stageDisplayName s.1,
       inspected := pyInt inspected,
       accepted := pyInt accepted,
       rejected := pyInt rejected,
       rejectionRate := pyRound2 (if 0 < inspected then rejected / inspected * 100 else 0),
       contributionPercent :=
         pyRound2 (if 0 < totalRejected then rejected / totalRejected * 100 else 0) } : StageKPI))
  sortDescByInt (fun x => x.rejected) kpis

/-- The `TrendDataPoint` model (schemas.py). -/
structure TrendDataPoint where
  date : PDate
  value : ℚ
  label : List Char
deriving DecidableEq

/-- The `TrendSeries` model (schemas.py). -/
structure TrendSeries where
  name : List Char
  data : List TrendDataPoint
  color : List Char
deriving DecidableEq

/-- The `TrendChart` model (schemas.py). -/
structure TrendChart where
  title : List Char
  xLabel : List Char
  yLabel : List Char
  series : List TrendSeries
deriving DecidableEq

/-- Model of `strptime(month + "-15", "%Y-%m-%d")` with the
`date.today()` fallback used by the trend builders. -/
def midMonthDate (month : List Char) (today : PDate) : PDate :=
  match fmtYmd (month ++ "-15".data) with
  | some d => d
  | none => today

/-- Embedding of `compute_rejection_trend` (computation.py lines 369-398). -/
def computeRejectionTrend (agg : DataAggregator) (today : PDate) : TrendChart :=
  let months := sortStrings (agg.production.map Prod.fst)
  let seriesData := months.map (fun month =>
    let produced :=
      (match alistFind month agg.production with
       | some c => c.produced
       | none => 0)
    let rejected := stageRejectedInMonth agg.stages month
    let rate := if 0 < produced then rejected / produced * 100 else 0
    ({ date := midMonthDate month today,
       value := pyRound2 rate,
       label := month } : TrendDataPoint))
  { title := "Monthly Rejection Rate Trend".data,
    xLabel := "Month".data,
    yLabel := "Rejection Rate (%)".data,
    series := [{ name := "Rejection %".data, data := seriesData, color := "#ef4444".data }] }

/-- The `DefectData` model (schemas.py); category and severity are the
fixed "other"/"minor" of computation.py lines 428-429. -/
structure DefectData where
  defectCode : List Char
  defectName : List Char
  category : List Char
  severity : List Char
  count : Int
  percentage : ℚ
  cumulativePercentage : ℚ
deriving DecidableEq

/-- The `ParetoChart` model (schemas.py). -/
structure ParetoChart where
  title : List Char
  defects : List DefectData
  threshold80 : Nat
deriving DecidableEq

/-- Python `str.title` over one pass: letters starting an alphabetic run
are upper-cased, the rest lower-cased. -/
def pyTitleAux : Bool → List Char → List Char
  | _, [] => []
  | prevAlpha, c :: rest =>
      let isAl := ('A' ≤ c ∧ c ≤ 'Z') ∨ ('a' ≤ c ∧ c ≤ 'z')
      let c2 := if isAl then (if prevAlpha then asciiLower c else asciiUpper c) else c
      c2 :: pyTitleAux isAl rest

/-- Python `str.title`. -/
def pyTitle (s : List Char) : List Char := pyTitleAux false s

/-- Model of `code.replace("_", " ")`. -/
def replUnderscore (s : List Char) : List Char :=
  s.map (fun c => if c = '_' then ' ' else c)

/-- The Pareto accumulation loop of `compute_defect_pareto`
(computation.py lines 415-433), translated branch for branch: `cumulative`
is the running percentage, `thr` the `threshold_80` variable (initially 0)
and `idx` the 0-based entry index.  Note that both branches of the
original `if`/`elif` assign `idx` whenever `thr = 0`. -/
def paretoLoop : List (List Char × ℚ) → ℚ → ℚ → Nat → Nat → List DefectData × Nat
  | [], _, _, thr, _ => ([], thr)
  | (code, count) :: rest, total, cum, thr, idx =>
      let percentage := if 0 < total then count / total * 100 else 0
      let cum2 := cum + percentage
      let thr2 :=
        if cum2 ≤ 80 ∧ thr = 0 then idx
        else if 80 < cum2 ∧ thr = 0 then idx
        else thr
      let dd : DefectData :=
        { defectCode := code,
          defectName := pyTitle (replUnderscore code),
          category := "other".data,
          severity := "minor".data,
          count := pyInt count,
          percentage := pyRound2 percentage,
          cumulativePercentage := pyRound2 cum2 }
      let restRes := paretoLoop rest total cum2 thr2 (idx + 1)
      (dd :: restRes.1, restRes.2)

/-- Embedding of `compute_defect_pareto` (computation.py lines 401-439). -/
def computeDefectPareto (agg : DataAggregator) : ParetoChart :=
  let defectTotals := agg.defects.map (fun d => (d.1, (d.2.map Prod.snd).sum))
  let sortedDefects := sortDescBy Prod.snd defectTotals
  let total := (defectTotals.map Prod.snd).sum
  let res := paretoLoop sortedDefects total 0 0 0
  { title := "Defect Pareto Analysis (Top 80%)".data,
    defects := res.1,
    threshold80 := res.2 }

/-- Formalisation of the SPEC sentence for the Pareto threshold (spec.md
section 4.6), for comparison with the implementation: sort the counts
descending and return the index of the first entry at which the running
cumulative percentage reaches or exceeds 80%. -/
def specThrAux : List ℚ → ℚ → ℚ → Nat → Nat
  | [], _, _, idx => idx
  | c :: rest, total, cum, idx =>
      let cum2 := cum + (if 0 < total then c / total * 100 else 0)
      if 80 ≤ cum2 then idx else specThrAux rest total cum2 (idx + 1)

/-- The spec-mandated `threshold_80` of a list of defect counts. -/
def specParetoThreshold80 (counts : List ℚ) : Nat :=
  specThrAux (sortDescBy id counts) counts.sum 0 0

/-- The `DefectTrend` model (schemas.py). -/
structure DefectTrend where
  defectCode : List Char
  defectName : List Char
  monthlyData : List TrendDataPoint
  averageRate : ℚ
  trendDirection : List Char
deriving DecidableEq

/-- Deduplicate preserving first occurrence (models building a Python
`set` before sorting: after `sorted`, only the underlying set matters). -/
def dedupAux (seen : List (List Char)) : List (List Char) → List (List Char)
  | [] => []
  | x :: rest =>
      if seen.contains x then dedupAux seen rest
      else x :: dedupAux (x :: seen) rest

/-- Embedding of `compute_visual_defect_trends` (computation.py lines 442-488).  The
Python literals `1.1` and `0.9` are idealised as the exact rationals
11/10 and 9/10. -/
def computeVisualDefectTrends (agg : DataAggregator) (today : PDate) : List DefectTrend :=
  let defectTotals := agg.defects.map (fun d => (d.1, (d.2.map Prod.snd).sum))
  let topDefects := (sortDescBy Prod.snd defectTotals).take 5
  let allMonths := sortStrings (dedupAux [] (agg.defects.map (fun d => d.2.map Prod.fst)).join)
  topDefects.map (fun td =>
    let monthlyData := allMonths.map (fun month =>
      let count :=
        match alistFind td.1 agg.defects with
        | some ms =>
            (match alistFind month ms with
             | some c => c
             | none => 0)
        | none => 0
      ({ date := midMonthDate month today, value := count, label := month } : TrendDataPoint))
    let direction :=
      if 2 ≤ monthlyData.length then
        let firstHalf := ((monthlyData.take (monthlyData.length / 2)).map (fun p => p.value)).sum
        let secondHalf := ((monthlyData.drop (monthlyData.length / 2)).map (fun p => p.value)).sum
        if firstHalf * (11 / 10) < secondHalf then "increasing".data
        else if secondHalf < firstHalf * (9 / 10) then "decreasing".data
        else "stable".data
      else "stable".data
    let avgRate :=
      if monthlyData.length ≠ 0 then
        ((monthlyData.map (fun p => p.value)).sum) / (monthlyData.length : ℚ)
      else 0
    { defectCode := td.1,
      defectName := pyTitle (replUnderscore td.1),
      monthlyData := monthlyData,
      averageRate := pyRound2 avgRate,
      trendDirection := direction })

/-! ## computation.py: compute_statistics and the orchestrator -/

/-- The `StatsResponse` model (schemas.py); `generated_at` is the wall
clock reading `datetime.utcnow()`, modelled as an abstract tick count. -/
structure StatsResponse where
  kpis : KPIData
  stageKpis : List StageKPI
  rejectionTrend : TrendChart
  defectPareto : ParetoChart
  visualDefectTrends : List DefectTrend
  aiSummary : List Char
  generatedAt : Nat
deriving DecidableEq

/-- Embedding of `generate_business_summary` (computation.py lines 510-532).  The Python
number formatting (`:,.0f` grouping, float `repr`) is idealised by
`ratChars`; the text is never inspected downstream. -/
def generateBusinessSummary (kpis : KPIData) (stageKpis : List StageKPI)
    (defectPareto : ParetoChart) : List Char :=
  let base := "Summary: Yield is ".data ++ ratChars kpis.yieldRate ++
    "%, Rejection ".data ++ ratChars kpis.rejectionRate ++ "%. ".data ++
    "Financial loss: ".data ++ ratChars kpis.financialImpact ++ ". ".data
  let s1 :=
    match stageKpis with
    | top :: _ => base ++ "Focus on ".data ++ top.stageName ++ " (".data ++
        ratChars top.rejectionRate ++ "%). ".data
    | [] => base
  let s2 :=
    match defectPareto.defects with
    | top :: _ => s1 ++ "Fix ".data ++ top.defectName ++ " to recover ".data ++
        ratChars top.percentage ++ "%.".data
    | [] => s1
  if kpis.rejectionTrend = "up".data then s2 ++ " Trending UP.".data
  else if kpis.rejectionTrend = "down".data then s2 ++ " Trending DOWN.".data
  else s2

/-- Lookup `parsed_files[file_type]` with the `if file_type in parsed_files`
guard: a missing key contributes no parse results. -/
def lookupFT (ft : FileType) : List (FileType × List PFile) → List PFile
  | [] => []
  | (k, v) :: rest => if k = ft then v else lookupFT ft rest

/-- The aggregator built by `compute_statistics` (computation.py
lines 539-548): production types first, then the four inspection types in
the fixed order shopfloor, assembly, visual, integrity. -/
def buildAggregator (pfs : List (FileType × List PFile)) : DataAggregator :=
  let a1 := extractFromProduction (lookupFT .productionCumulative pfs) emptyAggregator
  let a2 := extractFromProduction (lookupFT .cumulative pfs) a1
  let a3 := extractFromInspection (lookupFT .shopfloor pfs) .shopfloor a2
  let a4 := extractFromInspection (lookupFT .assembly pfs) .assembly a3
  let a5 := extractFromInspection (lookupFT .visual pfs) .visual a4
  extractFromInspection (lookupFT .integrity pfs) .integrity a5

/-- Embedding of `compute_statistics` (computation.py lines 535-568, the second
definition, which shadows the truncated first one).  `today` is the
`date.today()` reading used by fallbacks, `now` the `datetime.utcnow()`
reading stamped into `generated_at`. -/
def computeStatistics (pfs : List (FileType × List PFile)) (today : PDate)
    (now : Nat) : StatsResponse :=
  let agg := buildAggregator pfs
  let kpis := computeKpis agg today
  let stageKpis := computeStageKpis agg
  { kpis := kpis,
    stageKpis := stageKpis,
    rejectionTrend := computeRejectionTrend agg today,
    defectPareto := computeDefectPareto agg,
    visualDefectTrends := computeVisualDefectTrends agg today,
    aiSummary := generateBusinessSummary kpis stageKpis (computeDefectPareto agg),
    generatedAt := now }

/-- A statistics object with its generation timestamp erased, for stating
determinism up to the wall clock. -/
def dropTimestamp (s : StatsResponse) : StatsResponse := { s with generatedAt := 0 }

/-- The terminal outcome of one pipeline run as observed through
`process_files` (pipelines/__init__.py): either the failed state carrying
the surfaced error messages, or completion carrying the statistics. -/
inductive POutcome where
  | failed (errors : List (List Char))
  | completed (stats : StatsResponse)
deriving DecidableEq

/-- The validation-gate and computation portion of `process_files`
(pipelines/__init__.py lines 88-170): after validation, when the result
is invalid and `error_rows > total_rows * 0.5` the run terminates in the
failed state surfacing the first ten error messages and no statistics are
computed; otherwise computation runs to completion. -/
def processParsed (pfs : List (FileType × List PFile)) (today : PDate)
    (now : Nat) : POutcome :=
  let v := validateParsedData pfs
  if v.valid = false ∧ (v.totalRows : ℚ) * (1 / 2) < (v.errorRows : ℚ) then
    .failed ((v.errors.take 10).map (fun e => e.message))
  else .completed (computeStatistics pfs today now)

end RAIS

namespace RAIS

/-- If every remaining row scores no more than the current best score, the
scanning loop keeps the current best row. -/
theorem fhAux_const (l : List (List PyVal)) :
    ∀ idx b r, (∀ x ∈ l, scoreRowAsHeader x ≤ b) → fhAux l idx b r = r := by
  induction l with
  | nil => intro idx b r _; rfl
  | cons hd tl ih =>
      intro idx b r hle
      have hhd : scoreRowAsHeader hd ≤ b := hle hd (List.mem_cons_self hd tl)
      have : ¬ b < scoreRowAsHeader hd := not_lt.mpr hhd
      simp only [fhAux, this, if_false]
      exact ih (idx + 1) b r fun x hx => hle x (List.mem_cons_of_mem hd hx)

/-- If the scanned list splits as `pre ++ w :: post` where `w` strictly
beats the running best and everything in `pre`, and is not beaten by
anything in `post`, the loop returns the 1-based position of `w`. -/
theorem fhAux_argmax (pre : List (List PyVal)) :
    ∀ w post idx b r, b < scoreRowAsHeader w →
      (∀ p ∈ pre, scoreRowAsHeader p < scoreRowAsHeader w) →
      (∀ p ∈ post, scoreRowAsHeader p ≤ scoreRowAsHeader w) →
      fhAux (pre ++ w :: post) idx b r = idx + pre.length := by
  induction pre with
  | nil =>
      intro w post idx b r hb _ hpost
      simp only [List.nil_append, fhAux, hb, if_true]
      rw [fhAux_const post (idx + 1) (scoreRowAsHeader w) idx hpost]
      simp
  | cons hd tl ih =>
      intro w post idx b r hb hpre hpost
      have hhd : scoreRowAsHeader hd < scoreRowAsHeader w :=
        hpre hd (List.mem_cons_self hd tl)
      have htl : ∀ p ∈ tl, scoreRowAsHeader p < scoreRowAsHeader w :=
        fun p hp => hpre p (List.mem_cons_of_mem hd hp)
      simp only [List.cons_append, fhAux]
      by_cases hcase : b < scoreRowAsHeader hd
      · simp only [hcase, if_true]
        have := ih w post (idx + 1) (scoreRowAsHeader hd) idx hhd htl hpost
        rw [show (tl.append (w :: post)) = tl ++ w :: post from rfl, this]
        simp [List.length_cons]
        omega
      · simp only [hcase, if_false]
        have := ih w post (idx + 1) b r hb htl hpost
        rw [show (tl.append (w :: post)) = tl ++ w :: post from rfl, this]
        simp [List.length_cons]
        omega

/-- If the ordered format list yields nothing, every format fails. -/
theorem tryFormats_eq_none (fs : List (List Char → Option PDate)) :
    ∀ s, tryFormats fs s = none → ∀ f ∈ fs, f s = none := by
  induction fs with
  | nil => intro s _ f hf; cases hf
  | cons g gs ih =>
      intro s hnone f hf
      simp only [tryFormats] at hnone
      rcases hgs : g s with _ | d
      · rcases List.mem_cons.mp hf with hfg | hftl
        · rw [hfg]; exact hgs
        · rw [hgs] at hnone
          exact ih s hnone f hftl
      · rw [hgs] at hnone; cases hnone

/-- If the ordered format list yields a date, some format produced it and
every earlier format failed. -/
theorem tryFormats_eq_some (fs : List (List Char → Option PDate)) :
    ∀ s dd, tryFormats fs s = some dd →
      ∃ pre f post, fs = pre ++ f :: post ∧ f s = some dd ∧
        ∀ g ∈ pre, g s = none := by
  induction fs with
  | nil => intro s dd h; cases h
  | cons g gs ih =>
      intro s dd h
      simp only [tryFormats] at h
      rcases hgs : g s with _ | d
      · rw [hgs] at h
        obtain ⟨pre, f, post, heq, hf, hpre⟩ := ih s dd h
        refine ⟨g :: pre, f, post, by rw [heq]; rfl, hf, ?_⟩
        intro x hx
        rcases List.mem_cons.mp hx with hxg | hxp
        · rw [hxg]; exact hgs
        · exact hpre x hxp
      · rw [hgs] at h
        refine ⟨[], g, gs, rfl, ?_, by intro x hx; cases hx⟩
        rw [hgs]
        cases h
        rfl

/-- Calling `add_error` preserves the bookkeeping invariant. -/
theorem vgood_addError (r : VResult) (m f s : List Char) (n : Nat)
    (c v : Option (List Char)) (h : VGood r) : VGood (addError r m f s n c v) := by
  obtain ⟨_, h2⟩ := h
  constructor
  · simp [addError]
  · simp [addError, h2]

/-- Calling `add_warning` preserves the bookkeeping invariant. -/
theorem vgood_addWarning (r : VResult) (m f s : List Char) (n : Nat)
    (c v : Option (List Char)) (h : VGood r) : VGood (addWarning r m f s n c v) := by
  obtain ⟨h1, h2⟩ := h
  exact ⟨h1, h2⟩

/-- Bumping `total_rows` preserves the bookkeeping invariant. -/
theorem vgood_bumpTotal (r : VResult) (n : Nat) (h : VGood r) :
    VGood { r with totalRows := r.totalRows + n } := by
  obtain ⟨h1, h2⟩ := h
  exact ⟨h1, h2⟩

/-- A fold of invariant-preserving steps preserves the invariant. -/
theorem vgood_foldl {α : Type} (step : VResult → α → VResult)
    (hstep : ∀ r x, VGood r → VGood (step r x)) :
    ∀ (l : List α) (r : VResult), VGood r → VGood (l.foldl step r) := by
  intro l
  induction l with
  | nil => intro r h; exact h
  | cons x xs ih => intro r h; exact ih (step r x) (hstep r x h)

/-- Running `validate_production_row` preserves the bookkeeping invariant. -/
theorem vgood_validateProductionRow (row : PRow) (sheet : PSheet) :
    ∀ r, VGood r → VGood (validateProductionRow row sheet r) := by
  intro r h
  unfold validateProductionRow
  rcases getNumeric (findColumn row.cells prodPatterns).2 with _ | p <;>
    rcases getNumeric (findColumn row.cells rejPatterns).2 with _ | rj <;>
    simp only [] <;>
    first
      | exact h
      | (split_ifs <;>
          first
            | exact h
            | exact vgood_addWarning _ _ _ _ _ _ _ h
            | exact vgood_addError _ _ _ _ _ _ _ h
            | exact vgood_addWarning _ _ _ _ _ _ _ (vgood_addWarning _ _ _ _ _ _ _ h)
            | exact vgood_addWarning _ _ _ _ _ _ _ (vgood_addError _ _ _ _ _ _ _ h)
            | exact vgood_addWarning _ _ _ _ _ _ _
                (vgood_addWarning _ _ _ _ _ _ _ (vgood_addError _ _ _ _ _ _ _ h)))

/-- Running `validate_inspection_row` preserves the bookkeeping invariant. -/
theorem vgood_validateInspectionRow (row : PRow) (sheet : PSheet) :
    ∀ r, VGood r → VGood (validateInspectionRow row sheet r) := by
  intro r h
  unfold validateInspectionRow inspErrStep inspWarnStep
  rcases getNumeric (findColumn row.cells acceptedPatterns).2 with _ | a <;>
    rcases getNumeric (findColumn row.cells rejectedPatterns).2 with _ | b <;>
    rcases getNumeric (findColumn row.cells inspectedPatterns).2 with _ | i <;>
    rcases getNumeric (findColumn row.cells receivedPatterns).2 with _ | rc <;>
    simp only [] <;>
    first
      | exact h
      | (split_ifs <;>
          first
            | exact h
            | exact vgood_addWarning _ _ _ _ _ _ _ h
            | exact vgood_addError _ _ _ _ _ _ _ h
            | exact vgood_addError _ _ _ _ _ _ _ (vgood_addWarning _ _ _ _ _ _ _ h))

/-- Running `validate_defect_row` preserves the bookkeeping invariant. -/
theorem vgood_validateDefectRow (row : PRow) (sheet : PSheet) :
    ∀ r, VGood r → VGood (validateDefectRow row sheet r) := by
  intro r h
  unfold validateDefectRow
  refine vgood_foldl _ ?_ row.cells r h
  intro r' kv h'
  split_ifs
  · exact h'
  · rcases getNumeric kv.2 with _ | n
    · exact h'
    · simp only []
      split_ifs
      · exact vgood_addWarning _ _ _ _ _ _ _ h'
      · exact h'

/-- The per-row dispatch preserves the bookkeeping invariant. -/
theorem vgood_validateRow (ft : FileType) (sheet : PSheet) :
    ∀ r row, VGood r → VGood (validateRow ft sheet r row) := by
  intro r row h
  unfold validateRow
  split_ifs
  · exact vgood_validateProductionRow row sheet r h
  · exact vgood_validateDefectRow row sheet _ (vgood_validateInspectionRow row sheet r h)
  · exact h

/-- Per-sheet validation preserves the bookkeeping invariant. -/
theorem vgood_valSheet (ft : FileType) :
    ∀ r sheet, VGood r → VGood (valSheet ft r sheet) := by
  intro r sheet h
  unfold valSheet
  exact vgood_foldl _ (fun r' row h' => vgood_validateRow ft sheet r' row h') sheet.data _
    (vgood_bumpTotal r sheet.data.length h)

/-- Per-file validation preserves the bookkeeping invariant. -/
theorem vgood_valFile (ft : FileType) :
    ∀ r pf, VGood r → VGood (valFile ft r pf) := by
  intro r pf h
  unfold valFile
  split_ifs
  · exact vgood_foldl _ (fun r' s h' => vgood_valSheet ft r' s h') pf.sheets r h
  · exact vgood_foldl _ (fun r' e h' => vgood_addError _ _ _ _ _ _ _ h') pf.errors r h

/-- The full validation run satisfies the bookkeeping invariant. -/
theorem vgood_validateParsedData (pfs : List (FileType × List PFile)) :
    VGood (validateParsedData pfs) := by
  unfold validateParsedData
  have base : VGood initVResult := ⟨rfl, rfl⟩
  have := vgood_foldl (fun acc p => p.2.foldl (valFile p.1) acc)
    (fun r p h => vgood_foldl (valFile p.1) (fun r' pf h' => vgood_valFile p.1 r' pf h') p.2 r h)
    pfs initVResult base
  obtain ⟨h1, h2⟩ := this
  exact ⟨h1, h2⟩

/-- Counting effect of `add_error`: `error_rows` up one, `total_rows`
unchanged. -/
theorem addError_counts (r : VResult) (m f s : List Char) (n : Nat)
    (c v : Option (List Char)) :
    (addError r m f s n c v).errorRows = r.errorRows + 1 ∧
    (addError r m f s n c v).totalRows = r.totalRows := by
  constructor <;> rfl

/-- Folding parse-error messages through `add_error` adds exactly their
number to `error_rows` and leaves `total_rows` unchanged. -/
theorem foldl_addError_counts (file : List Char) :
    ∀ (es : List (List Char)) (r : VResult),
      ((es.foldl (fun acc e => addError acc e file "N/A".data 0 none none) r).errorRows =
        r.errorRows + es.length) ∧
      ((es.foldl (fun acc e => addError acc e file "N/A".data 0 none none) r).totalRows =
        r.totalRows) := by
  intro es
  induction es with
  | nil => intro r; exact ⟨rfl, rfl⟩
  | cons e es ih =>
      intro r
      have h := ih (addError r e file "N/A".data 0 none none)
      constructor
      · rw [List.foldl_cons, h.1]
        simp [addError]
        omega
      · rw [List.foldl_cons, h.2]
        rfl

/-- The rejected/received check never touches the warning list. -/
theorem inspErrStep_warnings (row : PRow) (sheet : PSheet) (r : VResult) :
    (inspErrStep row sheet r).warnings = r.warnings := by
  unfold inspErrStep
  rcases getNumeric (findColumn row.cells rejectedPatterns).2 with _ | b <;>
    rcases getNumeric (findColumn row.cells receivedPatterns).2 with _ | rc <;>
    simp only [] <;>
    first
      | rfl
      | (split_ifs <;> rfl)

/-- The consistency warning never touches the error list. -/
theorem inspWarnStep_errors (row : PRow) (sheet : PSheet) (r : VResult) :
    (inspWarnStep row sheet r).errors = r.errors := by
  unfold inspWarnStep
  rcases getNumeric (findColumn row.cells acceptedPatterns).2 with _ | a <;>
    rcases getNumeric (findColumn row.cells rejectedPatterns).2 with _ | b <;>
    rcases getNumeric (findColumn row.cells inspectedPatterns).2 with _ | i <;>
    simp only [] <;>
    first
      | rfl
      | (split_ifs <;> rfl)

end RAIS

/-- C8: date normalisation returns a native date unchanged; interprets a
number as a day offset from the epoch 1899-12-30, returning no date when
the value is less than 1 (so 0 and negative serials give no date) and
April 2025 for serial 45748; and tries a string against the ordered format
list, the first successful parse winning and total failure giving no date
rather than an error. -/
theorem c8_excel_serial_to_date_spec :
    (∀ d : RAIS.PDate,
        RAIS.excelSerialToDate (RAIS.PyVal.pydate d) = some d) ∧
    (∀ q : ℚ, q < 1 → RAIS.excelSerialToDate (RAIS.PyVal.num q) = none) ∧
    (RAIS.excelSerialToDate (RAIS.PyVal.num 45748) = some ⟨2025, 4, 1⟩) ∧
    (∀ s : List Char,
      (RAIS.excelSerialToDate (RAIS.PyVal.str s) = none →
        ∀ f ∈ RAIS.parserFormats, f (RAIS.strip s) = none) ∧
      (∀ dd, RAIS.excelSerialToDate (RAIS.PyVal.str s) = some dd →
        ∃ pre f post, RAIS.parserFormats = pre ++ f :: post ∧
          f (RAIS.strip s) = some dd ∧
          ∀ g ∈ pre, g (RAIS.strip s) = none)) := by
  refine ⟨fun d => rfl, ?_, by decide, ?_⟩
  · intro q hq
    simp [RAIS.excelSerialToDate, hq]
  · intro s
    constructor
    · intro hnone
      exact RAIS.tryFormats_eq_none RAIS.parserFormats (RAIS.strip s) hnone
    · intro dd hsome
      exact RAIS.tryFormats_eq_some RAIS.parserFormats (RAIS.strip s) dd hsome

/-- C8 witness: a concrete date round-trips; serials 0 and -3 give no
date; serial 45748 is 2025-04-01; and the string "April 2025" parses via
the first succeeding format in the ordered list to April 2025. -/
theorem c8_excel_serial_to_date_witness :
    RAIS.excelSerialToDate (RAIS.PyVal.pydate ⟨2025, 4, 15⟩) = some ⟨2025, 4, 15⟩ ∧
    RAIS.excelSerialToDate (RAIS.PyVal.num 0) = none ∧
    RAIS.excelSerialToDate (RAIS.PyVal.num (-3)) = none ∧
    (∃ pre f post, RAIS.parserFormats = pre ++ f :: post ∧
      f (RAIS.strip "April 2025".data) = some ⟨2025, 4, 1⟩ ∧
      ∀ g ∈ pre, g (RAIS.strip "April 2025".data) = none) := by
  refine ⟨c8_excel_serial_to_date_spec.1 ⟨2025, 4, 15⟩,
          c8_excel_serial_to_date_spec.2.1 0 (by norm_num),
          c8_excel_serial_to_date_spec.2.1 (-3) (by norm_num),
          (c8_excel_serial_to_date_spec.2.2.2 "April 2025".data).2 ⟨2025, 4, 1⟩ (by decide)⟩

/-- Concrete score of a one-cell row holding the string "DATE": the keyword
bonus 10 plus the string bonus 2, normalised by one non-empty cell. -/
theorem score_date_row_eval :
    RAIS.scoreRowAsHeader [RAIS.PyVal.str "DATE".data] = 12 := by
  have hk : RAIS.keywordHit (RAIS.PyVal.str "DATE".data) = true := by decide
  have hne : RAIS.cellNonEmpty (RAIS.PyVal.str "DATE".data) = true := by decide
  simp [RAIS.scoreRowAsHeader, RAIS.cellScore, hk, hne, List.filter]
  norm_num

/-- Concrete score of a one-cell row holding the number 1: no keyword, the
numeric penalty `-1`, normalised by one non-empty cell. -/
theorem score_num_row_eval :
    RAIS.scoreRowAsHeader [RAIS.PyVal.num 1] = -1 := by
  have hk : RAIS.keywordHit (RAIS.PyVal.num 1) = false := by decide
  have hne : RAIS.cellNonEmpty (RAIS.PyVal.num 1) = true := by decide
  simp [RAIS.scoreRowAsHeader, RAIS.cellScore, hk, hne, List.filter]

/-- C6: header detection scans only the first 20 rows; the selected header
is the earliest row whose score is strictly greater than every earlier
score of every earlier row and at least that of every later row (under `>`, so
ties favour the earlier row); when every scanned row scores 0 or less the
header defaults to row 1; and an entirely empty row scores exactly 0. -/
theorem c6_find_header_row_spec :
    (∀ rows : List (List RAIS.PyVal),
        (∀ r ∈ rows.take 20, RAIS.scoreRowAsHeader r ≤ 0) →
        RAIS.headerRowOf rows = 1) ∧
    (∀ rows pre (w : List RAIS.PyVal) post,
        rows.take 20 = pre ++ w :: post →
        0 < RAIS.scoreRowAsHeader w →
        (∀ p ∈ pre, RAIS.scoreRowAsHeader p < RAIS.scoreRowAsHeader w) →
        (∀ p ∈ post, RAIS.scoreRowAsHeader p ≤ RAIS.scoreRowAsHeader w) →
        RAIS.findHeaderRow rows = pre.length + 1) ∧
    (∀ rows, RAIS.findHeaderRow rows = RAIS.findHeaderRow (rows.take 20)) ∧
    (∀ row : List RAIS.PyVal, (∀ c ∈ row, c = RAIS.PyVal.none) →
        RAIS.scoreRowAsHeader row = 0) := by
  refine ⟨?_, ?_, ?_, ?_⟩
  · intro rows hle
    have h0 : RAIS.findHeaderRow rows = 0 :=
      RAIS.fhAux_const (rows.take 20) 1 0 0 hle
    simp [RAIS.headerRowOf, h0]
  · intro rows pre w post htake hw hpre hpost
    unfold RAIS.findHeaderRow
    rw [htake, RAIS.fhAux_argmax pre w post 1 0 0 hw hpre hpost]
    omega
  · intro rows
    unfold RAIS.findHeaderRow
    rw [List.take_take, min_self]
  · intro row hnone
    have hfil : row.filter RAIS.cellNonEmpty = [] := by
      rw [List.filter_eq_nil_iff]
      intro a ha
      rw [hnone a ha]
      decide
    simp [RAIS.scoreRowAsHeader, hfil]

/-- C6 witness: in the sheet `[[1], ["DATE"], ["DATE"]]` the second row is
the first row of maximal positive score (the third ties but loses the tie),
so the header is row 2; and in a sheet whose single row scores `-1 ≤ 0` the
header defaults to row 1. -/
theorem c6_find_header_row_witness :
    RAIS.findHeaderRow
        [[RAIS.PyVal.num 1],
         [RAIS.PyVal.str "DATE".data],
         [RAIS.PyVal.str "DATE".data]] = 2 ∧
    RAIS.headerRowOf [[RAIS.PyVal.num 1]] = 1 := by
  constructor
  · exact c6_find_header_row_spec.2.1
      [[RAIS.PyVal.num 1],
       [RAIS.PyVal.str "DATE".data],
       [RAIS.PyVal.str "DATE".data]]
      [[RAIS.PyVal.num 1]]
      [RAIS.PyVal.str "DATE".data]
      [[RAIS.PyVal.str "DATE".data]]
      rfl
      (by rw [score_date_row_eval]; norm_num)
      (by
        intro p hp
        rw [List.mem_singleton] at hp
        rw [hp, score_date_row_eval, score_num_row_eval]
        norm_num)
      (by
        intro p hp
        rw [List.mem_singleton] at hp
        rw [hp])
  · exact c6_find_header_row_spec.1 [[RAIS.PyVal.num 1]]
      (by
        intro r hr
        simp only [List.take, List.mem_singleton] at hr
        rw [hr, score_num_row_eval]
        norm_num)

/-- C4 counterexample: the padded string " 42 " is a textual value that is
neither an error sentinel nor blank, yet `clean_value` does not return it
unmodified — it strips the surrounding whitespace. -/
theorem c4_clean_value_counterexample :
    RAIS.cleanValue (RAIS.PyVal.str " 42 ".data) ≠ RAIS.PyVal.str " 42 ".data ∧
    RAIS.cleanValue (RAIS.PyVal.str " 42 ".data) = RAIS.PyVal.str "42".data := by
  constructor
  · decide
  · decide

/-- C4 (amended): `clean_value` maps each of the five Excel error sentinels
and every blank (whitespace-only or empty) string to `None`; every numeric
value and every date value passes through unmodified; every other textual
value passes through with surrounding whitespace stripped. -/
theorem c4_clean_value_spec :
    (RAIS.cleanValue RAIS.PyVal.none = RAIS.PyVal.none) ∧
    (∀ s : List Char,
      RAIS.cleanValue (RAIS.PyVal.str s) =
        (if RAIS.errorSentinels.contains (RAIS.strip s) then RAIS.PyVal.none
         else if RAIS.strip s = [] then RAIS.PyVal.none
         else RAIS.PyVal.str (RAIS.strip s))) ∧
    (∀ q : ℚ, RAIS.cleanValue (RAIS.PyVal.num q) = RAIS.PyVal.num q) ∧
    (∀ d : RAIS.PDate, RAIS.cleanValue (RAIS.PyVal.pydate d) = RAIS.PyVal.pydate d) := by
  refine ⟨rfl, fun s => rfl, fun q => rfl, fun d => rfl⟩

/-- C5: every validation run returns `valid_rows = total_rows - error_rows`,
and `valid` is true exactly when no errors were recorded — warnings alone
never clear it. -/
theorem c5_validation_result_spec (pfs : List (RAIS.FileType × List RAIS.PFile)) :
    (RAIS.validateParsedData pfs).validRows =
      ((RAIS.validateParsedData pfs).totalRows : Int) -
        ((RAIS.validateParsedData pfs).errorRows : Int) ∧
    ((RAIS.validateParsedData pfs).valid = true ↔
      (RAIS.validateParsedData pfs).errors = []) := by
  constructor
  · rfl
  · have h := (RAIS.vgood_validateParsedData pfs).1
    rw [h]
    cases (RAIS.validateParsedData pfs).errors with
    | nil => simp
    | cons e es => simp

/-- C7: in an inspection row where accepted, rejected and inspected all
resolve to numbers, exactly one warning is added precisely when
`|accepted + rejected - inspected|` exceeds 1; and where rejected and
received both resolve, exactly one error is added precisely when rejected
exceeds received. -/
theorem c7_inspection_row_spec :
    (∀ (row : RAIS.PRow) (sheet : RAIS.PSheet) (r : RAIS.VResult) (a b i : ℚ),
      RAIS.getNumeric (RAIS.findColumn row.cells RAIS.acceptedPatterns).2 = some a →
      RAIS.getNumeric (RAIS.findColumn row.cells RAIS.rejectedPatterns).2 = some b →
      RAIS.getNumeric (RAIS.findColumn row.cells RAIS.inspectedPatterns).2 = some i →
      (RAIS.validateInspectionRow row sheet r).warnings.length =
        r.warnings.length + (if 1 < |a + b - i| then 1 else 0)) ∧
    (∀ (row : RAIS.PRow) (sheet : RAIS.PSheet) (r : RAIS.VResult) (b rc : ℚ),
      RAIS.getNumeric (RAIS.findColumn row.cells RAIS.rejectedPatterns).2 = some b →
      RAIS.getNumeric (RAIS.findColumn row.cells RAIS.receivedPatterns).2 = some rc →
      (RAIS.validateInspectionRow row sheet r).errors.length =
        r.errors.length + (if rc < b then 1 else 0)) := by
  constructor
  · intro row sheet r a b i ha hb hi
    unfold RAIS.validateInspectionRow
    rw [RAIS.inspErrStep_warnings]
    unfold RAIS.inspWarnStep
    rw [ha, hb, hi]
    by_cases hcond : 1 < |a + b - i|
    · simp [hcond, RAIS.addWarning]
    · simp [hcond]
  · intro row sheet r b rc hb hrc
    unfold RAIS.validateInspectionRow
    unfold RAIS.inspErrStep
    rw [hb, hrc]
    by_cases hcond : rc < b
    · simp [hcond, RAIS.addError, RAIS.inspWarnStep_errors]
    · simp [hcond, RAIS.inspWarnStep_errors]

/-- C7 witness: the row `{INSPECTED: 100, ACCEPTED: 60, REJECTED: 35}`
gets exactly one warning (95 differs from 100 by more than 1), and the row
`{REJECTED: 50, RECEIVED: 40}` gets exactly one error. -/
theorem c7_inspection_row_witness :
    (RAIS.validateInspectionRow
      ⟨[("INSPECTED".data, RAIS.PyVal.num 100),
        ("ACCEPTED".data, RAIS.PyVal.num 60),
        ("REJECTED".data, RAIS.PyVal.num 35)], 5⟩
      ⟨"S".data, [], [], 1, "f.xlsx".data⟩
      RAIS.initVResult).warnings.length = 1 ∧
    (RAIS.validateInspectionRow
      ⟨[("REJECTED".data, RAIS.PyVal.num 50),
        ("RECEIVED".data, RAIS.PyVal.num 40)], 6⟩
      ⟨"S".data, [], [], 1, "f.xlsx".data⟩
      RAIS.initVResult).errors.length = 1 := by
  constructor
  · rw [c7_inspection_row_spec.1
      ⟨[("INSPECTED".data, RAIS.PyVal.num 100),
        ("ACCEPTED".data, RAIS.PyVal.num 60),
        ("REJECTED".data, RAIS.PyVal.num 35)], 5⟩
      ⟨"S".data, [], [], 1, "f.xlsx".data⟩
      RAIS.initVResult 60 35 100 (by decide) (by decide) (by decide)]
    norm_num [RAIS.initVResult]
  · rw [c7_inspection_row_spec.2
      ⟨[("REJECTED".data, RAIS.PyVal.num 50),
        ("RECEIVED".data, RAIS.PyVal.num 40)], 6⟩
      ⟨"S".data, [], [], 1, "f.xlsx".data⟩
      RAIS.initVResult 50 40 (by decide) (by decide)]
    norm_num [RAIS.initVResult]

/-- C10: each recorded parse-error message of an unsuccessful file adds
one to `error_rows` and nothing to `total_rows`; consequently a batch
whose only file is unsuccessful with a single parse error yields
`error_rows = 1 > 0 = total_rows` and `valid_rows = -1`. -/
theorem c10_parse_error_rows_spec :
    (∀ (r : RAIS.VResult) (ft : RAIS.FileType) (pf : RAIS.PFile),
      pf.success = false →
      (RAIS.valFile ft r pf).errorRows = r.errorRows + pf.errors.length ∧
      (RAIS.valFile ft r pf).totalRows = r.totalRows) ∧
    ((RAIS.validateParsedData
        [(RAIS.FileType.assembly,
          [⟨"bad.xlsx".data, RAIS.FileType.assembly, [],
            ["Failed to parse file: boom".data], false⟩])]).errorRows = 1 ∧
     (RAIS.validateParsedData
        [(RAIS.FileType.assembly,
          [⟨"bad.xlsx".data, RAIS.FileType.assembly, [],
            ["Failed to parse file: boom".data], false⟩])]).totalRows = 0 ∧
     (RAIS.validateParsedData
        [(RAIS.FileType.assembly,
          [⟨"bad.xlsx".data, RAIS.FileType.assembly, [],
            ["Failed to parse file: boom".data], false⟩])]).validRows = -1 ∧
     (RAIS.validateParsedData
        [(RAIS.FileType.assembly,
          [⟨"bad.xlsx".data, RAIS.FileType.assembly, [],
            ["Failed to parse file: boom".data], false⟩])]).totalRows <
       (RAIS.validateParsedData
        [(RAIS.FileType.assembly,
          [⟨"bad.xlsx".data, RAIS.FileType.assembly, [],
            ["Failed to parse file: boom".data], false⟩])]).errorRows) := by
  constructor
  · intro r ft pf hpf
    unfold RAIS.valFile
    rw [hpf]
    simp only [Bool.false_eq_true, if_false]
    exact RAIS.foldl_addError_counts pf.fileName pf.errors r
  · refine ⟨by decide, by decide, by decide, by decide⟩

/-- C10 witness: applying the general part to a concrete unsuccessful file
with one parse-error message starting from a fresh result. -/
theorem c10_parse_error_rows_witness :
    (RAIS.valFile RAIS.FileType.assembly RAIS.initVResult
      ⟨"bad.xlsx".data, RAIS.FileType.assembly, [],
        ["Failed to parse file: boom".data], false⟩).errorRows =
      RAIS.initVResult.errorRows + 1 ∧
    (RAIS.valFile RAIS.FileType.assembly RAIS.initVResult
      ⟨"bad.xlsx".data, RAIS.FileType.assembly, [],
        ["Failed to parse file: boom".data], false⟩).totalRows =
      RAIS.initVResult.totalRows :=
  c10_parse_error_rows_spec.1 RAIS.initVResult RAIS.FileType.assembly
    ⟨"bad.xlsx".data, RAIS.FileType.assembly, [],
      ["Failed to parse file: boom".data], false⟩ rfl

/-- C1: the `threshold_80 == 0` sentinel of `compute_defect_pareto`
cannot distinguish "not yet set" from "set to index 0", so with defect
totals {A: 80, B: 15, C: 5} the code returns `threshold_80 = 1` even
though the cumulative percentage already reaches 80% at index 0; the
spec-mandated first-index-reaching-80% rule gives 0. -/
theorem c1_pareto_threshold_code_eval :
    (RAIS.computeDefectPareto
      ⟨[], [],
       [("A".data, [("2025-04".data, 80)]),
        ("B".data, [("2025-04".data, 15)]),
        ("C".data, [("2025-04".data, 5)])], []⟩).threshold80 = 1 ∧
    RAIS.specParetoThreshold80 [80, 15, 5] = 0 := by
  constructor
  · norm_num [RAIS.computeDefectPareto, RAIS.paretoLoop, RAIS.sortDescBy,
      RAIS.insertDescBy, RAIS.specThrAux, List.sum_cons, List.sum_nil]
  · norm_num [RAIS.specParetoThreshold80, RAIS.specThrAux, RAIS.sortDescBy,
      RAIS.insertDescBy, List.sum_cons, List.sum_nil]

/-- Rounding zero to two decimal places gives zero. -/
theorem pyRound2_zero : RAIS.pyRound2 0 = 0 := by
  norm_num [RAIS.pyRound2, RAIS.roundHalfEven, RAIS.ratFloor]

/-- C9: the overall KPI trend compares the two most recent months of the
production accumulator (last two of the sorted MonthKeys): the reported
change is `current rate - previous rate` (rounded to two decimals),
classified "up" above 0.5, "down" below -0.5, "stable" otherwise; with
fewer than two months the change is 0 and the trend "stable". -/
theorem c9_kpi_trend_spec :
    (∀ (agg : RAIS.DataAggregator) (today : RAIS.PDate),
      (RAIS.sortStrings (agg.production.map Prod.fst)).length < 2 →
      (RAIS.computeKpis agg today).rejectionRateChange = 0 ∧
      (RAIS.computeKpis agg today).rejectionTrend = "stable".data) ∧
    (∀ (agg : RAIS.DataAggregator) (today : RAIS.PDate) (cur prev : List Char)
        (rest : List (List Char)),
      (RAIS.sortStrings (agg.production.map Prod.fst)).reverse = cur :: prev :: rest →
      (RAIS.computeKpis agg today).rejectionRateChange =
        RAIS.pyRound2 (RAIS.monthRate agg cur - RAIS.monthRate agg prev) ∧
      (RAIS.computeKpis agg today).rejectionTrend =
        (if 1 / 2 < RAIS.monthRate agg cur - RAIS.monthRate agg prev then "up".data
         else if RAIS.monthRate agg cur - RAIS.monthRate agg prev < -(1 / 2) then "down".data
         else "stable".data)) := by
  constructor
  · intro agg today hlen
    rcases hrev : (RAIS.sortStrings (agg.production.map Prod.fst)).reverse with _ | ⟨a, _ | ⟨b, t⟩⟩
    · simp only [RAIS.computeKpis, hrev]
      exact ⟨pyRound2_zero, trivial⟩
    · simp only [RAIS.computeKpis, hrev]
      exact ⟨pyRound2_zero, trivial⟩
    · exfalso
      have hl := congrArg List.length hrev
      rw [List.length_reverse] at hl
      simp only [List.length_cons] at hl
      omega
  · intro agg today cur prev rest hrev
    simp only [RAIS.computeKpis, hrev, RAIS.monthRate, RAIS.stageRejectedInMonth]
    refine ⟨?_, ?_⟩ <;> first
      | rfl
      | trivial

/-- C9 witness: on the two-month aggregator the change is 50 - 10 = 40
and the trend "up"; on the empty aggregator the change is 0 and the trend
"stable". -/
theorem c9_kpi_trend_witness :
    (RAIS.computeKpis RAIS.trendWitnessAgg ⟨2025, 1, 1⟩).rejectionRateChange = 40 ∧
    (RAIS.computeKpis RAIS.trendWitnessAgg ⟨2025, 1, 1⟩).rejectionTrend = "up".data ∧
    (RAIS.computeKpis RAIS.emptyAggregator ⟨2025, 1, 1⟩).rejectionRateChange = 0 ∧
    (RAIS.computeKpis RAIS.emptyAggregator ⟨2025, 1, 1⟩).rejectionTrend = "stable".data := by
  have hemp := c9_kpi_trend_spec.1 RAIS.emptyAggregator ⟨2025, 1, 1⟩ (by decide)
  have hrev : (RAIS.sortStrings (RAIS.trendWitnessAgg.production.map Prod.fst)).reverse =
      "2025-05".data :: "2025-04".data :: [] := by decide
  have hb := c9_kpi_trend_spec.2 RAIS.trendWitnessAgg ⟨2025, 1, 1⟩
    "2025-05".data "2025-04".data [] hrev
  have hne : ("2025-04".data : List Char) = "2025-05".data ↔ False := by decide
  have hne2 : ("2025-05".data : List Char) = "2025-04".data ↔ False := by decide
  have hcur : RAIS.monthRate RAIS.trendWitnessAgg "2025-05".data = 50 := by
    norm_num [RAIS.monthRate, RAIS.trendWitnessAgg, RAIS.stageRejectedInMonth,
      RAIS.alistFind, hne, hne2]
  have hprev : RAIS.monthRate RAIS.trendWitnessAgg "2025-04".data = 10 := by
    norm_num [RAIS.monthRate, RAIS.trendWitnessAgg, RAIS.stageRejectedInMonth,
      RAIS.alistFind, hne, hne2]
  refine ⟨?_, ?_, hemp.1, hemp.2⟩
  · rw [hb.1, hcur, hprev]
    norm_num [RAIS.pyRound2, RAIS.roundHalfEven, RAIS.ratFloor]
  · rw [hb.2, hcur, hprev]
    norm_num

/-- C2: whenever the validation result has `error_rows > 0.5 * total_rows`,
the pipeline terminates in the failed state surfacing at most the first
ten error messages, and no statistics object is produced (the failed
outcome carries no statistics). -/
theorem c2_abort_law (pfs : List (RAIS.FileType × List RAIS.PFile))
    (today : RAIS.PDate) (now : Nat)
    (h : ((RAIS.validateParsedData pfs).totalRows : ℚ) * (1 / 2) <
         ((RAIS.validateParsedData pfs).errorRows : ℚ)) :
    RAIS.processParsed pfs today now =
      RAIS.POutcome.failed
        (((RAIS.validateParsedData pfs).errors.take 10).map (fun e => e.message)) ∧
    (((RAIS.validateParsedData pfs).errors.take 10).map (fun e => e.message)).length ≤ 10 := by
  have hg := RAIS.vgood_validateParsedData pfs
  have hpos : 0 < (RAIS.validateParsedData pfs).errorRows := by
    by_contra hzero
    push_neg at hzero
    have h0 : (RAIS.validateParsedData pfs).errorRows = 0 := Nat.le_zero.mp hzero
    rw [h0] at h
    have hnn : (0 : ℚ) ≤ ((RAIS.validateParsedData pfs).totalRows : ℚ) * (1 / 2) := by
      positivity
    simp only [Nat.cast_zero] at h
    linarith
  have hne : (RAIS.validateParsedData pfs).errors ≠ [] := by
    intro hnil
    rw [hg.2, hnil] at hpos
    simp at hpos
  have hval : (RAIS.validateParsedData pfs).valid = false := by
    rw [hg.1]
    cases herr : (RAIS.validateParsedData pfs).errors with
    | nil => exact absurd herr hne
    | cons a t => rfl
  constructor
  · simp only [RAIS.processParsed]
    rw [if_pos ⟨hval, h⟩]
  · rw [List.length_map, List.length_take]
    exact min_le_left _ _

/-- C2 witness: a batch whose only file failed to parse with one message
has `error_rows = 1 > 0 = total_rows * 0.5`, so the run fails surfacing
that single message. -/
theorem c2_abort_law_witness :
    RAIS.processParsed
      [(RAIS.FileType.assembly,
        [⟨"bad.xlsx".data, RAIS.FileType.assembly, [],
          ["Failed to parse file: boom".data], false⟩])] ⟨2025, 1, 1⟩ 7 =
      RAIS.POutcome.failed ["Failed to parse file: boom".data] := by
  have h1 : (RAIS.validateParsedData
      [(RAIS.FileType.assembly,
        [⟨"bad.xlsx".data, RAIS.FileType.assembly, [],
          ["Failed to parse file: boom".data], false⟩])]).totalRows = 0 := by decide
  have h2 : (RAIS.validateParsedData
      [(RAIS.FileType.assembly,
        [⟨"bad.xlsx".data, RAIS.FileType.assembly, [],
          ["Failed to parse file: boom".data], false⟩])]).errorRows = 1 := by decide
  have h := c2_abort_law
    [(RAIS.FileType.assembly,
      [⟨"bad.xlsx".data, RAIS.FileType.assembly, [],
        ["Failed to parse file: boom".data], false⟩])] ⟨2025, 1, 1⟩ 7
    (by rw [h1, h2]; norm_num)
  rw [h.1]
  decide

/-- C3 counterexample: two runs of `compute_statistics` on the same
(empty) parsed input at different wall-clock instants produce statistics
objects that are not structurally equal — they differ in the
`generated_at` timestamp stamped by `datetime.utcnow()`. -/
theorem c3_idempotence_counterexample :
    RAIS.computeStatistics [] ⟨2025, 4, 15⟩ 0 ≠
    RAIS.computeStatistics [] ⟨2025, 4, 15⟩ 1 := by
  intro h
  exact Nat.zero_ne_one (congrArg RAIS.StatsResponse.generatedAt h)

/-- C3 (amended): two runs of the computation pipeline on the same parsed
input and the same current-date reading agree on every component of the
statistics except the generation timestamp. -/
theorem c3_idempotence_spec (pfs : List (RAIS.FileType × List RAIS.PFile))
    (today : RAIS.PDate) (t1 t2 : Nat) :
    RAIS.dropTimestamp (RAIS.computeStatistics pfs today t1) =
    RAIS.dropTimestamp (RAIS.computeStatistics pfs today t2) := rfl
